import Mathlib

set_option genSizeOf false
set_option genSizeOfSpec false
set_option genInjectivity false

/-!
# maplibre-gl-layers — WASM sprite placement / depth-sort kernel, verified model

A shallow embedding of the geometric kernel in
`src/maplibre-gl-layers/wasm` (`projection_host.h`, `projection_host.cpp`,
`calculation_host.cpp`, `param_layouts.h`), with theorems settling the
frozen claims about it.

Modelling conventions, used consistently below:

* C++ `double` values in the geometric pipeline are modelled as real
  numbers (`ℝ`).  Every real number is finite, so `std::isfinite` guards
  are vacuously true; where a non-finite intermediate is *reachable* in
  the source only through a division, the guard is translated to the
  exact condition under which the C++ division produces a non-finite
  value (denominator = 0).  `toFiniteOr v fallback` is therefore the
  identity on `ℝ`.
* The source constant `PI = 3.14159...` (the closest double to π) is
  modelled as the real `π`, so that the libm trigonometric functions
  have their exact mathematical meaning.
* For the pixel-clamping helpers, where the claim itself is about
  non-finite inputs, a dedicated IEEE-style value type `DD`
  (finite rational ⊕ ±∞ ⊕ NaN) is used instead, with the comparison /
  multiplication semantics of doubles (any comparison with NaN is
  false, `∞ · 0 = NaN`, ...).
* Flat buffers are modelled as `List ℚ`; null pointers as `Option` /
  `Bool` arguments; an out-parameter write as the function's returned
  value.  `bool f(..., double* out)` becomes `... → Option α`.
* `std::sort` with a comparator is modelled as a deterministic
  comparison sort (`List.insertionSort`) over the same comparator.
-/

namespace MGL

noncomputable section Geometry

/-! ## projection_host.h — constants and Web-Mercator primitives -/

/-- `MAX_MERCATOR_LATITUDE` (projection_host.h:11). -/
def MAX_MERCATOR_LATITUDE : ℝ := 85.051129

/-- `DEG2RAD` (projection_host.h:12); the source `PI` is modelled as π. -/
def DEG2RAD : ℝ := Real.pi / 180

/-- `EARTH_RADIUS_METERS` (projection_host.h:13). -/
def EARTH_RADIUS_METERS : ℝ := 6378137

/-- `RAD2DEG` (calculation_host.cpp:793). -/
def RAD2DEG : ℝ := 180 / Real.pi

/-- `MIN_COS_LAT` (calculation_host.cpp:794). -/
def MIN_COS_LAT : ℝ := 1e-6

/-- `MIN_CLIP_W` (calculation_host.cpp:792). -/
def MIN_CLIP_W : ℝ := 1e-6

/-- `MIN_CLIP_Z_EPSILON` (calculation_host.cpp:505). -/
def MIN_CLIP_Z_EPSILON : ℝ := 1e-7

/-- `clamp` (projection_host.h:19): `fmax(fmin(value, max), min)`. -/
def clamp (value lo hi : ℝ) : ℝ := Max.max (Min.min value hi) lo

/-- `mercatorXfromLng` (projection_host.h:23). -/
def mercatorXfromLng (lng : ℝ) : ℝ := (180 + lng) / 360

/-- `mercatorYfromLat` (projection_host.h:27). -/
def mercatorYfromLat (lat : ℝ) : ℝ :=
  let constrained := clamp lat (-MAX_MERCATOR_LATITUDE) MAX_MERCATOR_LATITUDE
  let radians := constrained * DEG2RAD
  (180 - (180 / Real.pi) * Real.log (Real.tan (Real.pi / 4 + radians / 2))) / 360

/-- `circumferenceAtLatitude` (projection_host.h:36). -/
def circumferenceAtLatitude (latitudeDeg : ℝ) : ℝ :=
  2 * Real.pi * EARTH_RADIUS_METERS * Real.cos (latitudeDeg * DEG2RAD)

/-- `mercatorZfromAltitude` (projection_host.h:41). -/
def mercatorZfromAltitude (altitude latDeg : ℝ) : ℝ :=
  if circumferenceAtLatitude latDeg = 0 then 0
  else altitude / circumferenceAtLatitude latDeg

/-- `lngFromMercatorX` (projection_host.h:49). -/
def lngFromMercatorX (x : ℝ) : ℝ := x * 360 - 180

/-- `latFromMercatorY` (projection_host.h:53). -/
def latFromMercatorY (y : ℝ) : ℝ :=
  let y2 := 180 - y * 360
  (360 / Real.pi) * Real.arctan (Real.exp ((y2 * Real.pi) / 180)) - 90

/-- A column-major 4×4 matrix, as the flat 16-double array the source
indexes directly. -/
abbrev Mat4 : Type := ℕ → ℝ

/-- `multiplyMatrixAndVector` (projection_host.h:58): the four outputs
`(outX, outY, outZ, outW)`. -/
def multiplyMatrixAndVector (m : Mat4) (x y z w : ℝ) : ℝ × ℝ × ℝ × ℝ :=
  (m 0 * x + m 4 * y + m 8 * z + m 12 * w,
   m 1 * x + m 5 * y + m 9 * z + m 13 * w,
   m 2 * x + m 6 * y + m 10 * z + m 14 * w,
   m 3 * x + m 7 * y + m 11 * z + m 15 * w)

/-- `_fromLngLat` (projection_host.h:79): always succeeds; the non-finite
fallbacks to 0 are vacuous over ℝ.  Returns `(mercX, mercY, mercZ)`. -/
def fromLngLat (lng lat altitude : ℝ) : ℝ × ℝ × ℝ :=
  let constrainedLat := clamp lat (-MAX_MERCATOR_LATITUDE) MAX_MERCATOR_LATITUDE
  (mercatorXfromLng lng, mercatorYfromLat constrainedLat,
   mercatorZfromAltitude altitude constrainedLat)

/-- The clip components `(clipX, clipY, clipW)` computed by `_project`
(projection_host.h:98, projection_host.cpp:114) before its guards. -/
def projectClipVals (lng lat altitude worldSize : ℝ) (m : Mat4) : ℝ × ℝ × ℝ :=
  let constrainedLat := clamp lat (-MAX_MERCATOR_LATITUDE) MAX_MERCATOR_LATITUDE
  let worldX := mercatorXfromLng lng * worldSize
  let worldY := mercatorYfromLat constrainedLat * worldSize
  let elevation := altitude
  (m 0 * worldX + m 4 * worldY + m 8 * elevation + m 12,
   m 1 * worldX + m 5 * worldY + m 9 * elevation + m 13,
   m 3 * worldX + m 7 * worldY + m 11 * elevation + m 15)

/-- `_project` (projection_host.h:98): fails iff `clipW ≤ 0` (the
`isfinite` guards are vacuous over ℝ); returns the perspective-divided
screen point. -/
def project (lng lat altitude worldSize : ℝ) (m : Mat4) : Option (ℝ × ℝ) :=
  let clip := projectClipVals lng lat altitude worldSize m
  let clipX := clip.1
  let clipY := clip.2.1
  let clipW := clip.2.2
  if clipW ≤ 0 then none else some (clipX / clipW, clipY / clipW)

/-- The homogeneous coordinate `_unproject` computes for a clip-space z of
`z` (projection_host.h:156-162): `matrix · (pointX, pointY, z, 1)`. -/
def unprojCoord (m : Mat4) (pointX pointY z : ℝ) : ℝ × ℝ × ℝ × ℝ :=
  multiplyMatrixAndVector m pointX pointY z 1

/-- `_unproject` (projection_host.h:148): ray through the z=0 and z=1 clip
points, intersected with the world plane z=0 (`t = 0` when the
denominator vanishes), divided by `worldSize` and converted back to
lng/lat with the latitude clamped.  Fails when a homogeneous `w` is 0 or
when `worldSize = 0` (the exact condition under which the source's
`isfinite(world/worldSize)` guard fires for finite inputs). -/
def unproject (pointX pointY worldSize : ℝ) (m : Mat4) : Option (ℝ × ℝ) :=
  let coord0 := unprojCoord m pointX pointY 0
  let coord1 := unprojCoord m pointX pointY 1
  let coord0W := coord0.2.2.2
  let coord1W := coord1.2.2.2
  if coord0W = 0 ∨ coord1W = 0 then none
  else
      let world0X := coord0.1 / coord0W
      let world0Y := coord0.2.1 / coord0W
      let world0Z := coord0.2.2.1 / coord0W
      let world1X := coord1.1 / coord1W
      let world1Y := coord1.2.1 / coord1W
      let world1Z := coord1.2.2.1 / coord1W
      let denominator := world1Z - world0Z
      let t := if denominator = 0 then 0 else (0 - world0Z) / denominator
      let worldX := world0X + (world1X - world0X) * t
      let worldY := world0Y + (world1Y - world0Y) * t
      if worldSize = 0 then none
      else
        some (lngFromMercatorX (worldX / worldSize),
              clamp (latFromMercatorY (worldY / worldSize))
                (-MAX_MERCATOR_LATITUDE) MAX_MERCATOR_LATITUDE)

/-- `_calculatePerspectiveRatio` (projection_host.h:215): succeeds with
`cameraToCenterDistance / clipW` iff `clipW > 0` and the ratio is
positive. -/
def calculatePerspectiveRatioCore (lng lat altitude : ℝ)
    (cachedMercator : Option (ℝ × ℝ × ℝ)) (cameraToCenterDistance : ℝ)
    (m : Mat4) : Option ℝ :=
  let mercator := match cachedMercator with
    | some c => c
    | none => fromLngLat lng lat altitude
  let clip := multiplyMatrixAndVector m mercator.1 mercator.2.1 mercator.2.2 1
  let clipW := clip.2.2.2
  if clipW ≤ 0 then none
  else
    let ratio := cameraToCenterDistance / clipW
    if 0 < ratio then some ratio else none

/-! ## calculation_host.cpp — geometric data types

`calculation_host.cpp` calls the projection primitives under the names
`__fromLngLat`, `__project`, `__unproject`, `__calculatePerspectiveRatio`;
their bodies in this repository are the identically-shaped bool-returning
functions of `projection_host.h` (`_fromLngLat`, `_project`, `_unproject`,
`_calculatePerspectiveRatio`), embedded above. -/

set_option genInjectivity true in
/-- `SpritePoint` / `SpriteScreenPoint` (calculation_host.cpp:244-252). -/
structure SpriteScreenPoint where
  x : ℝ
  y : ℝ

/-- `SpriteAnchor` (calculation_host.cpp:254). -/
structure SpriteAnchor where
  x : ℝ
  y : ℝ

/-- `SpriteImageOffset` (calculation_host.cpp:262). -/
structure SpriteImageOffset where
  offsetMeters : ℝ
  offsetDeg : ℝ

/-- `RotationCache` (calculation_host.cpp:273). -/
structure RotationCache where
  degrees : ℝ
  sinNegativeRad : ℝ
  cosNegativeRad : ℝ

/-- `SurfaceCorner` (calculation_host.cpp:313). -/
structure SurfaceCorner where
  east : ℝ
  north : ℝ

/-- `SpriteLocation` (calculation_host.cpp:318). -/
structure SpriteLocation where
  lng : ℝ
  lat : ℝ
  z : ℝ

/-- `buildRotationCache` (calculation_host.cpp:304). -/
def buildRotationCache (totalRotateDeg : ℝ) : RotationCache :=
  ⟨totalRotateDeg, Real.sin (-totalRotateDeg * DEG2RAD),
   Real.cos (-totalRotateDeg * DEG2RAD)⟩

/-- `__projectLngLatToClipSpace` (calculation_host.cpp:2470): fails iff
`clipW ≤ MIN_CLIP_W` (finiteness vacuous over ℝ). -/
def projectLngLatToClipSpace (lng lat altitude : ℝ) (m : Mat4) :
    Option (ℝ × ℝ × ℝ × ℝ) :=
  let mercator := fromLngLat lng lat altitude
  let clip := multiplyMatrixAndVector m mercator.1 mercator.2.1 mercator.2.2 1
  if clip.2.2.2 ≤ MIN_CLIP_W then none else some clip

/-- `applySurfaceDisplacement` (calculation_host.cpp:796): base lng/lat
displaced by `(east, north)` meters; altitude is passed through. -/
def applySurfaceDisplacement (baseLng baseLat baseAltitude east north : ℝ) :
    ℝ × ℝ × ℝ :=
  let deltaLat := (north / EARTH_RADIUS_METERS) * RAD2DEG
  let cosLat := Real.cos (baseLat * DEG2RAD)
  let cosLatClamped := Max.max cosLat MIN_COS_LAT
  let deltaLng := (east / (EARTH_RADIUS_METERS * cosLatClamped)) * RAD2DEG
  (baseLng + deltaLng, baseLat + deltaLat, baseAltitude)

/-- `__calculateBillboardDepthKey` (calculation_host.cpp:2503): unproject
the screen center to lng/lat (altitude 0), forward-project through the
mercator matrix, return `-NDC_z`. -/
def calculateBillboardDepthKey (centerX centerY worldSize : ℝ)
    (inverseMatrix mercatorMatrix : Mat4) : Option ℝ :=
  if worldSize ≤ 0 then none
  else
    match unproject centerX centerY worldSize inverseMatrix with
    | none => none
    | some (lng, lat) =>
      let mercator := fromLngLat lng lat 0
      let clip := multiplyMatrixAndVector mercatorMatrix
        mercator.1 mercator.2.1 mercator.2.2 1
      let clipZ := clip.2.2.1
      let clipW := clip.2.2.2
      let ndcZ := if clipW ≠ 0 then clipZ / clipW else clipZ
      some (-ndcZ)

/-- One iteration of the `__calculateSurfaceDepthKey` loop body
(calculation_host.cpp:2578-2622): displace, project to clip space,
optionally bias `clipZ`, return the corner's `-NDC_z`; `none` when the
clip projection fails. -/
def surfaceCornerDepth (baseLng baseLat baseAltitude east north : ℝ)
    (mercatorMatrix : Mat4) (applyBias : Bool) (biasNdc minClipZEpsilon : ℝ) :
    Option ℝ :=
  let displaced := applySurfaceDisplacement baseLng baseLat baseAltitude east north
  match projectLngLatToClipSpace displaced.1 displaced.2.1 displaced.2.2
      mercatorMatrix with
  | none => none
  | some clip =>
    let clipZ0 := clip.2.2.1
    let clipW := clip.2.2.2
    let clipZ :=
      if applyBias then
        let biasedClipZ := clipZ0 + biasNdc * clipW
        let minClipZ := -clipW + minClipZEpsilon
        if biasedClipZ < minClipZ then minClipZ else biasedClipZ
      else clipZ0
    let ndcZ := if clipW ≠ 0 then clipZ / clipW else clipZ
    some (-ndcZ)

/-- The `__calculateSurfaceDepthKey` index loop
(calculation_host.cpp:2572-2623).  `acc` is the running `maxDepth`
(`none` standing for the initial `-∞`); an out-of-range index is skipped
(`continue`); a failed corner aborts the whole computation (outer
`none`). -/
def surfaceDepthLoop (baseLng baseLat baseAltitude : ℝ)
    (displacements : List (ℝ × ℝ)) (mercatorMatrix : Mat4) (applyBias : Bool)
    (biasNdc minClipZEpsilon : ℝ) :
    List ℤ → Option ℝ → Option (Option ℝ)
  | [], acc => some acc
  | i :: rest, acc =>
    if 0 ≤ i ∧ i.toNat < displacements.length then
      let disp := displacements.getD i.toNat (0, 0)
      match surfaceCornerDepth baseLng baseLat baseAltitude disp.1 disp.2
            mercatorMatrix applyBias biasNdc minClipZEpsilon with
        | none => none
        | some depthCandidate =>
          surfaceDepthLoop baseLng baseLat baseAltitude displacements
            mercatorMatrix applyBias biasNdc minClipZEpsilon rest
            (some (match acc with
                   | none => depthCandidate
                   | some maxDepth =>
                     if maxDepth < depthCandidate then depthCandidate
                     else maxDepth))
    else
      surfaceDepthLoop baseLng baseLat baseAltitude displacements
        mercatorMatrix applyBias biasNdc minClipZEpsilon rest acc

/-- `TRIANGLE_INDICES` (calculation_host.cpp:492). -/
def TRIANGLE_INDICES : List ℤ := [0, 1, 2, 2, 1, 3]

/-- `__calculateSurfaceDepthKey` (calculation_host.cpp:2553): the maximum
corner `-NDC_z` over the index list; fails when a list is empty, a corner
projection fails, or no index was valid (`maxDepth` stays `-∞`). -/
def calculateSurfaceDepthKey (baseLng baseLat baseAltitude : ℝ)
    (displacements : List (ℝ × ℝ)) (indices : List ℤ) (mercatorMatrix : Mat4)
    (applyBias : Bool) (biasNdc minClipZEpsilon : ℝ) : Option ℝ :=
  if displacements.length = 0 ∨ indices.length = 0 then none
  else
    match surfaceDepthLoop baseLng baseLat baseAltitude displacements
        mercatorMatrix applyBias biasNdc minClipZEpsilon indices none with
    | none => none
    | some none => none
    | some (some maxDepth) => some maxDepth

/-! ## calculation_host.cpp — projection context and per-sprite scale -/

/-- `ProjectionContext` (calculation_host.cpp:983); null matrix pointers are
`none`. -/
structure ProjectionContext where
  worldSize : ℝ
  cameraToCenterDistance : ℝ
  mercatorMatrix : Option Mat4
  pixelMatrix : Option Mat4
  pixelMatrixInverse : Option Mat4

/-- `projectSpritePoint` (calculation_host.cpp:991). -/
def projectSpritePoint (ctx : ProjectionContext) (location : SpriteLocation) :
    Option SpriteScreenPoint :=
  match ctx.pixelMatrix with
  | none => none
  | some m =>
    if ctx.worldSize ≤ 0 then none
    else
      match project location.lng location.lat location.z ctx.worldSize m with
      | none => none
      | some (px, py) => some ⟨px, py⟩

/-- `unprojectSpritePoint` (calculation_host.cpp:1011); the result carries
`z = 0`. -/
def unprojectSpritePoint (ctx : ProjectionContext) (point : SpriteScreenPoint) :
    Option SpriteLocation :=
  match ctx.pixelMatrixInverse with
  | none => none
  | some m =>
    if ctx.worldSize ≤ 0 then none
    else
      match unproject point.x point.y ctx.worldSize m with
      | none => none
      | some (lng, lat) => some ⟨lng, lat, 0⟩

/-- `projectLngLatToClip` (calculation_host.cpp:1031). -/
def projectLngLatToClip (ctx : ProjectionContext) (location : SpriteLocation) :
    Option (ℝ × ℝ × ℝ × ℝ) :=
  match ctx.mercatorMatrix with
  | none => none
  | some m => projectLngLatToClipSpace location.lng location.lat location.z m

/-- `calculateMercatorCoordinate` (calculation_host.cpp:1044): `__fromLngLat`
always succeeds over ℝ. -/
def calculateMercatorCoordinate (location : SpriteLocation) : ℝ × ℝ × ℝ :=
  fromLngLat location.lng location.lat location.z

/-- `calculatePerspectiveRatio` (calculation_host.cpp:1056): the host-side
wrapper; every failure path falls back to the neutral ratio `1.0`, and a
non-positive successful ratio is also replaced by `1.0`. -/
def calculatePerspectiveRatio (ctx : ProjectionContext)
    (location : SpriteLocation) (cached : Option (ℝ × ℝ × ℝ)) : ℝ :=
  match ctx.mercatorMatrix with
  | none => 1
  | some m =>
    if ctx.cameraToCenterDistance ≤ 0 then 1
    else
      let mercator := match cached with
        | some c => c
        | none => calculateMercatorCoordinate location
      match calculatePerspectiveRatioCore location.lng location.lat location.z
          (some mercator) ctx.cameraToCenterDistance m with
      | none => 1
      | some ratio => if 0 < ratio then ratio else 1

/-- `calculateMetersPerPixelAtLatitude` (calculation_host.cpp:834). -/
def calculateMetersPerPixelAtLatitude (zoomExp2 latitude : ℝ) : ℝ :=
  (Real.cos (latitude * DEG2RAD) * (2 * Real.pi * EARTH_RADIUS_METERS)) /
    (512 * zoomExp2)

/-- `calculateEffectivePixelsPerMeter` (calculation_host.cpp:842): `0` for a
non-positive meters-per-pixel, else the reciprocal scaled by the
perspective ratio clamped to the neutral `1.0` when non-positive. -/
def calculateEffectivePixelsPerMeter (metersPerPixelAtLatitude perspectiveRatio : ℝ) : ℝ :=
  if metersPerPixelAtLatitude ≤ 0 then 0
  else
    let basePixelsPerMeter := 1 / metersPerPixelAtLatitude
    let clampedPerspective := if 0 < perspectiveRatio then perspectiveRatio else 1
    basePixelsPerMeter * clampedPerspective

/-! ## calculation_host.cpp — billboard and surface sizing -/

/-- `ensureFinite` (calculation_host.cpp:627): the identity over ℝ. -/
def ensureFinite (value : ℝ) : ℝ := value

/-- `ClampSpritePixelSizeResult` (calculation_host.cpp:621). -/
structure ClampSpritePixelSizeResult where
  width : ℝ
  height : ℝ
  scaleAdjustment : ℝ

/-- `clampSpritePixelSize` (calculation_host.cpp:631), over ℝ (see `DD`
below for the IEEE-faithful version): scales both dimensions by
`min/largest` when below the bound, then by `max/adjusted` when above. -/
def clampSpritePixelSize (width height spriteMinPixel spriteMaxPixel : ℝ) :
    ClampSpritePixelSizeResult :=
  let largest := Max.max width height
  if largest ≤ 0 then ⟨width, height, 1⟩
  else
    let factor1 :=
      if 0 < spriteMinPixel ∧ largest < spriteMinPixel then
        spriteMinPixel / largest
      else 1
    let adjustedLargest := largest * factor1
    let factor2 :=
      if 0 < spriteMaxPixel ∧ spriteMaxPixel < adjustedLargest then
        spriteMaxPixel / adjustedLargest
      else 1
    ⟨width * factor1 * factor2, height * factor1 * factor2, factor1 * factor2⟩

/-- `calculateBillboardPixelDimensions` (calculation_host.cpp:856). -/
def calculateBillboardPixelDimensions (imageWidth imageHeight baseMetersPerPixel
    imageScale zoomScaleFactor effectivePixelsPerMeter spriteMinPixel
    spriteMaxPixel : ℝ) : ClampSpritePixelSizeResult :=
  if imageWidth ≤ 0 ∨ imageHeight ≤ 0 ∨ baseMetersPerPixel ≤ 0 ∨
      effectivePixelsPerMeter ≤ 0 then ⟨0, 0, 1⟩
  else
    let scaleFactor := baseMetersPerPixel * imageScale * zoomScaleFactor *
      effectivePixelsPerMeter
    clampSpritePixelSize (ensureFinite (imageWidth * scaleFactor))
      (ensureFinite (imageHeight * scaleFactor)) spriteMinPixel spriteMaxPixel

/-- `calculateBillboardOffsetPixels` (calculation_host.cpp:877): the screen
shift `(x, y)` of the meter/bearing offset. -/
def calculateBillboardOffsetPixels (offset : Option SpriteImageOffset)
    (imageScale zoomScaleFactor effectivePixelsPerMeter sizeScaleAdjustment : ℝ) :
    ℝ × ℝ :=
  let offsetMeters := (match offset with
    | some o => o.offsetMeters
    | none => 0) * imageScale * zoomScaleFactor
  let offsetPixels := offsetMeters * effectivePixelsPerMeter * sizeScaleAdjustment
  let offsetRad := (match offset with
    | some o => o.offsetDeg
    | none => 0) * DEG2RAD
  (offsetPixels * Real.sin offsetRad, offsetPixels * Real.cos offsetRad)

/-- `calculateBillboardAnchorShiftPixels` (calculation_host.cpp:897). -/
def calculateBillboardAnchorShiftPixels (halfWidth halfHeight : ℝ)
    (anchor : Option SpriteAnchor) (rotation : RotationCache) : ℝ × ℝ :=
  if halfWidth ≤ 0 ∨ halfHeight ≤ 0 then (0, 0)
  else
    let anchorX := (match anchor with
      | some a => a.x
      | none => 0) * halfWidth
    let anchorY := (match anchor with
      | some a => a.y
      | none => 0) * halfHeight
    if anchorX = 0 ∧ anchorY = 0 then (0, 0)
    else
      let cosR := rotation.cosNegativeRad
      let sinR := rotation.sinNegativeRad
      (-anchorX * cosR + anchorY * sinR, -anchorX * sinR - anchorY * cosR)

/-- `calculateSurfaceAnchorShiftMeters` (calculation_host.cpp:920). -/
def calculateSurfaceAnchorShiftMeters (halfWidthMeters halfHeightMeters : ℝ)
    (anchor : Option SpriteAnchor) (sinNegRotation cosNegRotation : ℝ) :
    SurfaceCorner :=
  if halfWidthMeters ≤ 0 ∨ halfHeightMeters ≤ 0 then ⟨0, 0⟩
  else
    let anchorEast := (match anchor with
      | some a => a.x
      | none => 0) * halfWidthMeters
    let anchorNorth := (match anchor with
      | some a => a.y
      | none => 0) * halfHeightMeters
    if anchorEast = 0 ∧ anchorNorth = 0 then ⟨0, 0⟩
    else
      ⟨-anchorEast * cosNegRotation + anchorNorth * sinNegRotation,
       -anchorEast * sinNegRotation - anchorNorth * cosNegRotation⟩

/-- `calculateSurfaceOffsetMeters` (calculation_host.cpp:941). -/
def calculateSurfaceOffsetMeters (offset : Option SpriteImageOffset)
    (imageScale zoomScaleFactor sizeScaleAdjustment : ℝ) : SurfaceCorner :=
  match offset with
  | none => ⟨0, 0⟩
  | some o =>
    let offsetMeters := o.offsetMeters * imageScale * zoomScaleFactor *
      sizeScaleAdjustment
    if offsetMeters = 0 then ⟨0, 0⟩
    else
      ⟨offsetMeters * Real.sin (o.offsetDeg * DEG2RAD),
       offsetMeters * Real.cos (o.offsetDeg * DEG2RAD)⟩

/-- `clipToScreen` (calculation_host.cpp:958): perspective divide, viewport
transform, device→CSS pixel scaling; fails when `clipW = 0` or
`pixelRatio = 0` (the finiteness guards are vacuous over ℝ). -/
def clipToScreen (clipPosition : ℝ × ℝ × ℝ × ℝ)
    (drawingBufferWidth drawingBufferHeight pixelRatio : ℝ) :
    Option SpriteScreenPoint :=
  let clipW := clipPosition.2.2.2
  if clipW = 0 then none
  else
    let invW := 1 / clipW
    let ndcX := clipPosition.1 * invW
    let ndcY := clipPosition.2.1 * invW
    let deviceX := (ndcX + 1) * 0.5 * drawingBufferWidth
    let deviceY := (1 - ndcY) * 0.5 * drawingBufferHeight
    if pixelRatio = 0 then none
    else some ⟨deviceX / pixelRatio, deviceY / pixelRatio⟩

/-- `SurfaceWorldDimensions` (calculation_host.cpp:347). -/
structure SurfaceWorldDimensions where
  width : ℝ
  height : ℝ
  scaleAdjustment : ℝ

/-- `calculateSurfaceWorldDimensions` (calculation_host.cpp:2098): quad size
in meters; the pixel clamp converts the larger dimension to pixels with
`effectivePixelsPerMeter`, compares to the bounds, and scales back.
Note the source computes the max-bound factor from the *unclamped*
`largestPixels`, overwriting the min-bound factor. -/
def calculateSurfaceWorldDimensions (imageWidth imageHeight baseMetersPerPixel
    imageScale zoomScaleFactor effectivePixelsPerMeter spriteMinPixel
    spriteMaxPixel : ℝ) : SurfaceWorldDimensions :=
  if imageWidth ≤ 0 ∨ imageHeight ≤ 0 ∨ baseMetersPerPixel ≤ 0 then ⟨0, 0, 1⟩
  else
    let scaleFactor := baseMetersPerPixel * imageScale * zoomScaleFactor
    let width := ensureFinite (imageWidth * scaleFactor)
    let height := ensureFinite (imageHeight * scaleFactor)
    if 0 < effectivePixelsPerMeter ∧ (0 < spriteMinPixel ∨ 0 < spriteMaxPixel) then
      let largestMeters := Max.max width height
      if 0 < largestMeters then
        let largestPixels := largestMeters * effectivePixelsPerMeter
        if 0 < largestPixels then
          let scale1 :=
            if 0 < spriteMinPixel ∧ largestPixels < spriteMinPixel then
              spriteMinPixel / largestPixels
            else 1
          let scaledLargest := largestPixels * scale1
          let scale :=
            if 0 < spriteMaxPixel ∧ spriteMaxPixel < scaledLargest then
              spriteMaxPixel / largestPixels
            else scale1
          if scale ≠ 1 then ⟨width * scale, height * scale, scale⟩
          else ⟨width, height, 1⟩
        else ⟨width, height, 1⟩
      else ⟨width, height, 1⟩
    else ⟨width, height, 1⟩

/-- `SURFACE_BASE_CORNERS` (calculation_host.cpp:494). -/
def SURFACE_BASE_CORNERS : List (ℝ × ℝ) := [(-1, 1), (1, 1), (-1, -1), (1, -1)]

/-- `calculateSurfaceCornerDisplacements` (calculation_host.cpp:2145), scalar
path: each base corner scaled to half-size, shifted by the anchor,
rotated by the negative rotation and translated by the offset. -/
def calculateSurfaceCornerDisplacements (worldWidthMeters worldHeightMeters : ℝ)
    (anchor : Option SpriteAnchor) (sinNegativeRotation cosNegativeRotation : ℝ)
    (offsetMeters : SurfaceCorner) : List SurfaceCorner :=
  if worldWidthMeters ≤ 0 ∨ worldHeightMeters ≤ 0 then
    List.replicate 4 offsetMeters
  else
    let halfWidth := worldWidthMeters / 2
    let halfHeight := worldHeightMeters / 2
    let anchorEast := (match anchor with
      | some a => a.x
      | none => 0) * halfWidth
    let anchorNorth := (match anchor with
      | some a => a.y
      | none => 0) * halfHeight
    SURFACE_BASE_CORNERS.map fun baseCorner =>
      let cornerEast := baseCorner.1 * halfWidth
      let cornerNorth := baseCorner.2 * halfHeight
      let localEast := cornerEast - anchorEast
      let localNorth := cornerNorth - anchorNorth
      ⟨localEast * cosNegativeRotation - localNorth * sinNegativeRotation +
         offsetMeters.east,
       localEast * sinNegativeRotation + localNorth * cosNegativeRotation +
         offsetMeters.north⟩

/-- `SurfaceCenterParams` (calculation_host.cpp:460); pointer fields are
`Option`s. -/
structure SurfaceCenterParams where
  baseLngLat : SpriteLocation
  imageWidth : ℝ
  imageHeight : ℝ
  baseMetersPerPixel : ℝ
  imageScale : ℝ
  zoomScaleFactor : ℝ
  totalRotateDeg : ℝ
  sinNegativeRotation : ℝ
  cosNegativeRotation : ℝ
  anchor : Option SpriteAnchor
  offset : Option SpriteImageOffset
  effectivePixelsPerMeter : ℝ
  spriteMinPixel : ℝ
  spriteMaxPixel : ℝ
  projection : Option ProjectionContext
  enableClipProjection : Bool
  enableScreenProjection : Bool
  drawingBufferWidth : ℝ
  drawingBufferHeight : ℝ
  pixelRatio : ℝ
  resolveAnchorless : Bool

/-- `SurfaceCenterResult` (calculation_host.cpp:353). -/
structure SurfaceCenterResult where
  center : Option SpriteScreenPoint
  worldDimensions : SurfaceWorldDimensions
  totalDisplacement : SurfaceCorner
  displacedLngLat : SpriteLocation
  anchorlessCenter : Option SpriteScreenPoint
  anchorlessDisplacement : Option SurfaceCorner
  anchorlessLngLat : Option SpriteLocation

/-- The `projectPoint` lambda of `calculateSurfaceCenterPosition`
(calculation_host.cpp:2267): the clip path when available (falling
through on failure), else the plain screen projection. -/
def surfaceProjectPoint (params : SurfaceCenterParams) (lngLat : SpriteLocation) :
    Option SpriteScreenPoint :=
  let clipProjectionAvailable := params.enableClipProjection ∧
    params.projection.isSome ∧ 0 < params.drawingBufferWidth ∧
    0 < params.drawingBufferHeight ∧ params.pixelRatio ≠ 0
  let screenProjectionAvailable := params.enableScreenProjection ∧
    params.projection.isSome
  let viaClip : Option SpriteScreenPoint :=
    if clipProjectionAvailable then
      match params.projection with
      | none => none
      | some ctx =>
        match projectLngLatToClip ctx lngLat with
        | none => none
        | some clip => clipToScreen clip params.drawingBufferWidth
            params.drawingBufferHeight params.pixelRatio
    else none
  match viaClip with
  | some p => some p
  | none =>
    if screenProjectionAvailable then
      match params.projection with
      | none => none
      | some ctx => projectSpritePoint ctx lngLat
    else none

/-- `calculateSurfaceCenterPosition` (calculation_host.cpp:2258). -/
def calculateSurfaceCenterPosition (params : SurfaceCenterParams) :
    SurfaceCenterResult :=
  let worldDims := calculateSurfaceWorldDimensions params.imageWidth
    params.imageHeight params.baseMetersPerPixel params.imageScale
    params.zoomScaleFactor params.effectivePixelsPerMeter params.spriteMinPixel
    params.spriteMaxPixel
  let halfWidthMeters := worldDims.width * 0.5
  let halfHeightMeters := worldDims.height * 0.5
  let anchorShiftMeters := calculateSurfaceAnchorShiftMeters halfWidthMeters
    halfHeightMeters params.anchor params.sinNegativeRotation
    params.cosNegativeRotation
  let offsetMeters := calculateSurfaceOffsetMeters params.offset
    params.imageScale params.zoomScaleFactor worldDims.scaleAdjustment
  let totalDisplacement : SurfaceCorner :=
    ⟨anchorShiftMeters.east + offsetMeters.east,
     anchorShiftMeters.north + offsetMeters.north⟩
  let displacedRaw := applySurfaceDisplacement params.baseLngLat.lng
    params.baseLngLat.lat params.baseLngLat.z totalDisplacement.east
    totalDisplacement.north
  let displaced : SpriteLocation :=
    ⟨displacedRaw.1, displacedRaw.2.1, displacedRaw.2.2⟩
  let center := surfaceProjectPoint params displaced
  if params.resolveAnchorless then
    let anchorlessDisplacement := offsetMeters
    let anchorlessRaw := applySurfaceDisplacement params.baseLngLat.lng
      params.baseLngLat.lat params.baseLngLat.z anchorlessDisplacement.east
      anchorlessDisplacement.north
    let anchorlessLngLat : SpriteLocation :=
      ⟨anchorlessRaw.1, anchorlessRaw.2.1, anchorlessRaw.2.2⟩
    { center := center
      worldDimensions := worldDims
      totalDisplacement := totalDisplacement
      displacedLngLat := displaced
      anchorlessCenter := surfaceProjectPoint params anchorlessLngLat
      anchorlessDisplacement := some anchorlessDisplacement
      anchorlessLngLat := some anchorlessLngLat }
  else
    { center := center
      worldDimensions := worldDims
      totalDisplacement := totalDisplacement
      displacedLngLat := displaced
      anchorlessCenter := none
      anchorlessDisplacement := none
      anchorlessLngLat := none }

/-- `BillboardCenterResult` (calculation_host.cpp:337). -/
structure BillboardCenterResult where
  center : SpriteScreenPoint
  halfWidth : ℝ
  halfHeight : ℝ
  pixelWidth : ℝ
  pixelHeight : ℝ
  anchorShift : ℝ × ℝ
  offsetShift : ℝ × ℝ

/-- `calculateBillboardCenterPosition` (calculation_host.cpp:2348): the
center is the base screen point plus the offset shift (y subtracted);
the anchor shift is carried separately for the corner pass. -/
def calculateBillboardCenterPosition (base : SpriteScreenPoint)
    (imageWidth imageHeight baseMetersPerPixel imageScale zoomScaleFactor
     effectivePixelsPerMeter spriteMinPixel spriteMaxPixel : ℝ)
    (rotation : RotationCache) (anchor : Option SpriteAnchor)
    (offset : Option SpriteImageOffset) : BillboardCenterResult :=
  let pixelDims := calculateBillboardPixelDimensions imageWidth imageHeight
    baseMetersPerPixel imageScale zoomScaleFactor effectivePixelsPerMeter
    spriteMinPixel spriteMaxPixel
  let halfWidth := pixelDims.width * 0.5
  let halfHeight := pixelDims.height * 0.5
  let anchorShift := calculateBillboardAnchorShiftPixels halfWidth halfHeight
    anchor rotation
  let offsetShift := calculateBillboardOffsetPixels offset imageScale
    zoomScaleFactor effectivePixelsPerMeter pixelDims.scaleAdjustment
  { center := ⟨base.x + offsetShift.1, base.y - offsetShift.2⟩
    halfWidth := halfWidth
    halfHeight := halfHeight
    pixelWidth := pixelDims.width
    pixelHeight := pixelDims.height
    anchorShift := anchorShift
    offsetShift := offsetShift }

/-! ## calculation_host.cpp — items, origin references and center resolution -/

/-- `InputItemEntry` (param_layouts.h:110): one 27-double item record. -/
structure InputItemEntry where
  spriteHandle : ℝ
  resourceHandle : ℝ
  originTargetIndex : ℝ
  originUseResolvedAnchor : ℝ
  mode : ℝ
  scale : ℝ
  opacity : ℝ
  anchorX : ℝ
  anchorY : ℝ
  offsetMeters : ℝ
  offsetDeg : ℝ
  displayedRotateDeg : ℝ
  resolvedBaseRotateDeg : ℝ
  rotateDeg : ℝ
  order : ℝ
  subLayer : ℝ
  originReferenceKey : ℝ
  bucketReferenceKey : ℝ
  bucketReferenceIndex : ℝ
  imageHandle : ℝ
  spriteLng : ℝ
  spriteLat : ℝ
  spriteZ : ℝ
  originSubLayer : ℝ
  originOrder : ℝ
  originUseAnchor : ℝ
  bucketIndex : ℝ

/-- `ResourceInfo` (calculation_host.cpp:370), the fields the center
resolution consumes. -/
structure ResourceInfo where
  handle : ℕ
  width : ℝ
  height : ℝ
  textureReady : Bool

/-- `BucketItem` (calculation_host.cpp:397), the fields the center
resolution consumes; `entry` is never null for a decoded item. -/
structure BucketItem where
  entry : InputItemEntry
  index : ℕ
  resource : Option ResourceInfo
  spriteLocation : SpriteLocation
  projected : SpriteScreenPoint
  projectedValid : Bool
  spriteHandle : ℤ
  rotation : RotationCache

/-- `toBool` (calculation_host.cpp:187). -/
def toBool (value : ℝ) : Bool := value ≠ 0

/-- `convertToInt64` (calculation_host.cpp:171): truncation toward zero.
Over ℝ the finiteness guards are vacuous; the double↔int64 round-trip
check is modelled by the int64 magnitude bound. -/
def convertToInt64 (value : ℝ) : Option ℤ :=
  let truncated : ℤ := if value < 0 then -⌊-value⌋ else ⌊value⌋
  if truncated < -(2 ^ 63) ∨ 2 ^ 63 ≤ truncated then none else some truncated

/-- `std::lround`, as used for the mode test (calculation_host.cpp:1235):
round half away from zero. -/
def lround (value : ℝ) : ℤ :=
  if value < 0 then -⌊-value + 1 / 2⌋ else ⌊value + 1 / 2⌋

/-- `SPRITE_ORIGIN_REFERENCE_INDEX_NONE` (calculation_host.cpp:586). -/
def SPRITE_ORIGIN_REFERENCE_INDEX_NONE : ℤ := -1

/-- `hasOriginLocation` (calculation_host.cpp:1180). -/
def hasOriginLocation (entry : InputItemEntry) : Prop :=
  entry.originTargetIndex ≠ -1 ∨
    (0 ≤ entry.originSubLayer ∧ 0 ≤ entry.originOrder)

instance (entry : InputItemEntry) : Decidable (hasOriginLocation entry) := by
  unfold hasOriginLocation
  infer_instance

/-- `resolveOriginBucketItem` (calculation_host.cpp:596): `none` (the C++
null) when the index field does not convert, is the -1 sentinel, is out
of range, or names an item whose sprite handle differs. -/
def resolveOriginBucketItem (current : BucketItem)
    (bucketItems : List BucketItem) : Option BucketItem :=
  match convertToInt64 current.entry.originTargetIndex with
  | none => none
  | some originIndex =>
    if originIndex = SPRITE_ORIGIN_REFERENCE_INDEX_NONE then none
    else if originIndex < 0 ∨ bucketItems.length ≤ originIndex.toNat then none
    else
      match bucketItems.get? originIndex.toNat with
      | none => none
      | some candidate =>
        if candidate.spriteHandle ≠ current.spriteHandle then none
        else some candidate

/-- The base-screen-point resolution at the head of `computeImageCenter`
(calculation_host.cpp:1208-1224), with the recursive call abstracted as
`recurse` (reference item, `originUseResolvedAnchor`, reference
resource): the item's own projected point unless a *valid* origin
reference (with a non-null resource) resolves. -/
def resolveBasePoint
    (recurse : BucketItem → Bool → ResourceInfo → SpriteScreenPoint)
    (bucketItem : BucketItem) (bucketItems : List BucketItem) :
    SpriteScreenPoint :=
  if hasOriginLocation bucketItem.entry then
    match resolveOriginBucketItem bucketItem bucketItems with
    | none => bucketItem.projected
    | some reference =>
      match reference.resource with
      | none => bucketItem.projected
      | some referenceResource =>
        recurse reference (toBool bucketItem.entry.originUseResolvedAnchor)
          referenceResource
  else bucketItem.projected

/-- `FrameConstants` (calculation_host.cpp:728), the fields the center
resolution consumes. -/
structure FrameConstants where
  worldSize : ℝ
  baseMetersPerPixel : ℝ
  spriteMinPixel : ℝ
  spriteMaxPixel : ℝ
  drawingBufferWidth : ℝ
  drawingBufferHeight : ℝ
  pixelRatio : ℝ
  zoomScaleFactor : ℝ

/-- `computeImageCenter` (calculation_host.cpp:1197): resolves the anchored
or anchorless on-screen center of an item, recursing through origin
chains.  The C++ recursion is unbounded (a cyclic reference would never
terminate); `fuel` bounds it in the model, and with fuel exhausted the
item's own projected point is returned.  For every acyclic host input a
large enough fuel reproduces the source exactly. -/
def computeImageCenter : ℕ → BucketItem → Bool → ProjectionContext →
    FrameConstants → ResourceInfo → ℝ → List BucketItem → Bool →
    SpriteScreenPoint
  | 0, bucketItem, _, _, _, _, _, _, _ => bucketItem.projected
  | fuel + 1, bucketItem, useResolvedAnchor, projection, frame, resource,
      effectivePixelsPerMeter, bucketItems, clipContextAvailable =>
    let fallbackCenter := bucketItem.projected
    let basePoint := resolveBasePoint
      (fun reference resolvedAnchor referenceResource =>
        computeImageCenter fuel reference resolvedAnchor projection frame
          referenceResource effectivePixelsPerMeter bucketItems
          clipContextAvailable)
      bucketItem bucketItems
    let anchor : SpriteAnchor := ⟨bucketItem.entry.anchorX, bucketItem.entry.anchorY⟩
    let offset : SpriteImageOffset :=
      ⟨bucketItem.entry.offsetMeters, bucketItem.entry.offsetDeg⟩
    let imageScale := if bucketItem.entry.scale ≠ 0 then bucketItem.entry.scale else 1
    let totalRotateDeg := bucketItem.rotation.degrees
    let isSurface := lround bucketItem.entry.mode = 0
    if resource.width ≤ 0 ∨ resource.height ≤ 0 then basePoint
    else if isSurface then
      let baseLngLat :=
        if hasOriginLocation bucketItem.entry then
          match unprojectSpritePoint projection ⟨basePoint.x, basePoint.y⟩ with
          | some unprojected => unprojected
          | none => bucketItem.spriteLocation
        else bucketItem.spriteLocation
      let params : SurfaceCenterParams :=
        { baseLngLat := baseLngLat
          imageWidth := resource.width
          imageHeight := resource.height
          baseMetersPerPixel := frame.baseMetersPerPixel
          imageScale := imageScale
          zoomScaleFactor := frame.zoomScaleFactor
          totalRotateDeg := totalRotateDeg
          sinNegativeRotation := bucketItem.rotation.sinNegativeRad
          cosNegativeRotation := bucketItem.rotation.cosNegativeRad
          anchor := some anchor
          offset := some offset
          effectivePixelsPerMeter := effectivePixelsPerMeter
          spriteMinPixel := frame.spriteMinPixel
          spriteMaxPixel := frame.spriteMaxPixel
          projection := some projection
          enableClipProjection := clipContextAvailable
          enableScreenProjection := !clipContextAvailable
          drawingBufferWidth := frame.drawingBufferWidth
          drawingBufferHeight := frame.drawingBufferHeight
          pixelRatio := frame.pixelRatio
          resolveAnchorless := true }
      let placement := calculateSurfaceCenterPosition params
      let anchorlessCenter := placement.anchorlessCenter.getD fallbackCenter
      let anchorAppliedCenter := placement.center.getD anchorlessCenter
      if useResolvedAnchor then anchorAppliedCenter else anchorlessCenter
    else
      let placement := calculateBillboardCenterPosition basePoint resource.width
        resource.height frame.baseMetersPerPixel imageScale
        frame.zoomScaleFactor effectivePixelsPerMeter frame.spriteMinPixel
        frame.spriteMaxPixel bucketItem.rotation (some anchor) (some offset)
      let anchorAppliedCenter := placement.center
      let anchorlessCenter : SpriteScreenPoint :=
        ⟨placement.center.x + placement.anchorShift.1,
         placement.center.y - placement.anchorShift.2⟩
      if useResolvedAnchor then anchorAppliedCenter else anchorlessCenter

end Geometry

/-! ## An IEEE-style double model for the pixel-clamp helpers

`clampSpritePixelSize` / `calculateBillboardPixelDimensions` are also
embedded over `DD`, a value type with the double's special values, because
the pixel-clamping claim quantifies over non-finite inputs.  Only the
operations those two functions perform are defined: `<`, `<=`
(false whenever an operand is NaN), `*` (`∞ · 0 = NaN`), `/`,
`std::max` (`(a < b) ? b : a`), `std::isfinite`.  Signed zero is not
modelled (the source never distinguishes `-0.0` on these paths). -/

set_option genInjectivity true in
/-- A double: a finite rational, an infinity, or NaN. -/
inductive DD where
  | fin (q : ℚ)
  | pinf
  | ninf
  | nan

namespace DD

/-- `std::isfinite`. -/
def isFinite : DD → Bool
  | .fin _ => true
  | _ => false

/-- IEEE `<`: false when either operand is NaN. -/
def blt : DD → DD → Bool
  | .fin a, .fin b => a < b
  | .fin _, .pinf => true
  | .ninf, .fin _ => true
  | .ninf, .pinf => true
  | _, _ => false

/-- IEEE `<=`: false when either operand is NaN. -/
def ble : DD → DD → Bool
  | .fin a, .fin b => a ≤ b
  | .fin _, .pinf => true
  | .ninf, _ => true
  | .pinf, .pinf => true
  | _, _ => false

/-- IEEE `*`. -/
def mul : DD → DD → DD
  | .nan, _ => .nan
  | _, .nan => .nan
  | .fin a, .fin b => .fin (a * b)
  | .fin a, .pinf => if 0 < a then .pinf else if a < 0 then .ninf else .nan
  | .fin a, .ninf => if 0 < a then .ninf else if a < 0 then .pinf else .nan
  | .pinf, .fin b => if 0 < b then .pinf else if b < 0 then .ninf else .nan
  | .ninf, .fin b => if 0 < b then .ninf else if b < 0 then .pinf else .nan
  | .pinf, .pinf => .pinf
  | .pinf, .ninf => .ninf
  | .ninf, .pinf => .ninf
  | .ninf, .ninf => .pinf

/-- IEEE `/` (without signed zero: a finite value over ±∞ is `0`, and
`x / 0` for positive finite `x` is `+∞`). -/
def div : DD → DD → DD
  | .nan, _ => .nan
  | _, .nan => .nan
  | .fin a, .fin b =>
    if b = 0 then (if a = 0 then .nan else if 0 < a then .pinf else .ninf)
    else .fin (a / b)
  | .fin _, .pinf => .fin 0
  | .fin _, .ninf => .fin 0
  | .pinf, .fin b => if b < 0 then .ninf else .pinf
  | .ninf, .fin b => if b < 0 then .pinf else .ninf
  | .pinf, _ => .nan
  | .ninf, _ => .nan

/-- `std::max(a, b)`, which is `(a < b) ? b : a`. -/
def stdMax (a b : DD) : DD := if blt a b then b else a

/-- `ensureFinite` (calculation_host.cpp:627) over `DD`. -/
def ensureFinite (value : DD) : DD := if value.isFinite then value else .fin 0

end DD

/-- Evaluation of the `DD` operations on constructor-shaped operands, by
definitional unfolding. -/
theorem DD.isFinite_fin (a : ℚ) : (DD.fin a).isFinite = true := rfl

theorem DD.isFinite_pinf : DD.pinf.isFinite = false := rfl

theorem DD.blt_fin (a b : ℚ) : (DD.fin a).blt (.fin b) = decide (a < b) := rfl

theorem DD.ble_fin (a b : ℚ) : (DD.fin a).ble (.fin b) = decide (a ≤ b) := rfl

theorem DD.ble_pinf_fin (b : ℚ) : DD.pinf.ble (.fin b) = false := rfl

theorem DD.mul_fin (a b : ℚ) : (DD.fin a).mul (.fin b) = .fin (a * b) := rfl

theorem DD.mul_pinf_fin (b : ℚ) :
    DD.pinf.mul (.fin b)
      = if 0 < b then DD.pinf else if b < 0 then DD.ninf else DD.nan := rfl

theorem DD.div_fin (a b : ℚ) :
    (DD.fin a).div (.fin b)
      = if b = 0 then (if a = 0 then DD.nan else if 0 < a then DD.pinf
          else DD.ninf)
        else .fin (a / b) := rfl

theorem DD.ensureFinite_fin (a : ℚ) : (DD.fin a).ensureFinite = .fin a := rfl

theorem DD.ensureFinite_pinf : DD.pinf.ensureFinite = .fin 0 := rfl

set_option genInjectivity true in
/-- `ClampSpritePixelSizeResult` over `DD`. -/
structure DDClampResult where
  width : DD
  height : DD
  scaleAdjustment : DD

/-- `clampSpritePixelSize` (calculation_host.cpp:631) over the IEEE-style
`DD` model, mirroring the source's comparisons and sequential scaling
exactly. -/
def ddClampSpritePixelSize (width height spriteMinPixel spriteMaxPixel : DD) :
    DDClampResult :=
  let largest := DD.stdMax width height
  if !largest.isFinite || largest.ble (.fin 0) then ⟨width, height, .fin 1⟩
  else
    let factor1 :=
      if (DD.fin 0).blt spriteMinPixel && largest.blt spriteMinPixel then
        spriteMinPixel.div largest
      else .fin 1
    let nextWidth := width.mul factor1
    let nextHeight := height.mul factor1
    let scaleAdjustment1 := (DD.fin 1).mul factor1
    let adjustedLargest := largest.mul factor1
    let factor2 :=
      if (DD.fin 0).blt spriteMaxPixel && spriteMaxPixel.blt adjustedLargest then
        spriteMaxPixel.div adjustedLargest
      else .fin 1
    ⟨nextWidth.mul factor2, nextHeight.mul factor2,
     scaleAdjustment1.mul factor2⟩

/-- `calculateBillboardPixelDimensions` (calculation_host.cpp:856) over the
IEEE-style `DD` model. -/
def ddCalculateBillboardPixelDimensions (imageWidth imageHeight
    baseMetersPerPixel imageScale zoomScaleFactor effectivePixelsPerMeter
    spriteMinPixel spriteMaxPixel : DD) : DDClampResult :=
  if imageWidth.ble (.fin 0) || imageHeight.ble (.fin 0) ||
      baseMetersPerPixel.ble (.fin 0) || effectivePixelsPerMeter.ble (.fin 0) then
    ⟨.fin 0, .fin 0, .fin 1⟩
  else
    let scaleFactor := ((baseMetersPerPixel.mul imageScale).mul
      zoomScaleFactor).mul effectivePixelsPerMeter
    ddClampSpritePixelSize ((imageWidth.mul scaleFactor).ensureFinite)
      ((imageHeight.mul scaleFactor).ensureFinite) spriteMinPixel spriteMaxPixel

/-! ## The depth sort (calculation_host.cpp:1676-1699)

The comparator reads, per `DepthItem`, the depth key, the item's `order`,
the converted 64-bit sprite handle, and the `imageHandle` field.  Depth
keys reaching the sort are finite (NaN-keyed items were dropped by the
collection pass), so the key fields are modelled as exact numbers: `ℚ`
for the double-valued fields and `ℤ` for the int64 handle.  `std::sort`
with this comparator is modelled by `List.insertionSort` over the
comparator-induced "does not need to swap" relation `¬ less b a` — a
deterministic comparison sort agreeing with the comparator, as the
source's is. -/

/-- The fields of a `DepthItem` (calculation_host.cpp:432) that the sort
comparator consumes (the source's null-item fallbacks are unreachable:
every collected `DepthItem` holds an item). -/
structure DepthSortEntry where
  depthKey : ℚ
  order : ℚ
  spriteHandle : ℤ
  imageHandle : ℚ

/-- The comparator lambda of the depth sort (calculation_host.cpp:1677):
`depthKey`, then `order`, then `spriteHandle`, then `imageHandle`, each
ascending. -/
def depthLess (a b : DepthSortEntry) : Bool :=
  if a.depthKey ≠ b.depthKey then a.depthKey < b.depthKey
  else if a.order ≠ b.order then a.order < b.order
  else if a.spriteHandle ≠ b.spriteHandle then a.spriteHandle < b.spriteHandle
  else a.imageHandle < b.imageHandle

/-- The non-strict relation induced by the comparator: `a` may stay before
`b`. -/
def depthKeeps (a b : DepthSortEntry) : Prop := depthLess b a = false

instance : DecidableRel depthKeeps := fun _ _ => by
  unfold depthKeeps
  infer_instance

/-- The sort of `collectDepthSortedItemsInternal`
(calculation_host.cpp:1676): a comparison sort over the four-key
comparator. -/
def sortDepthItems (items : List DepthSortEntry) : List DepthSortEntry :=
  List.insertionSort depthKeeps items

/-! ## prepareDrawSpriteImages — buffer validation and the header reset

The flat double buffers are modelled as `List ℚ` (the header fields that
matter are exact integers stored in doubles; `params.getD i 0` is the
read `paramsPtr[i]`), null pointers as `none`.  `std::size_t` values are
naturals below `SIZE_T_LIMIT = 2^32` (the wasm32 build), and the size_t
span multiplications wrap modulo `SIZE_T_LIMIT`, exactly as the
source's do.  The pipeline that runs *after* a successful validation
(decode, precompute, depth collection, prepare, pack —
calculation_host.cpp:2773-2966) only ever ends in `return true`; it is
abstracted as the `rest` parameter, and the theorems below hold for
every `rest`, which is exactly the claim's content about the failure
paths. -/

/-- `std::size_t` modulus: the wasm32 build has 32-bit `size_t`. -/
def SIZE_T_LIMIT : ℕ := 2 ^ 32

/-- Layout constants (param_layouts.h:17-31). -/
def INPUT_HEADER_LENGTH : ℕ := 15

/-- `INPUT_FRAME_CONSTANT_LENGTH` (param_layouts.h:18). -/
def INPUT_FRAME_CONSTANT_LENGTH : ℕ := 24

/-- `INPUT_MATRIX_LENGTH` (param_layouts.h:19). -/
def INPUT_MATRIX_LENGTH : ℕ := 48

/-- `RESOURCE_STRIDE` (param_layouts.h:20). -/
def RESOURCE_STRIDE : ℕ := 9

/-- `SPRITE_STRIDE` (param_layouts.h:21). -/
def SPRITE_STRIDE : ℕ := 6

/-- `ITEM_STRIDE` (param_layouts.h:22). -/
def ITEM_STRIDE : ℕ := 27

/-- `RESULT_ITEM_STRIDE` (param_layouts.h:29): 19 + 36 + 8 + 68. -/
def RESULT_ITEM_STRIDE : ℕ := 131

/-- `RESULT_VERTEX_COMPONENT_LENGTH` (param_layouts.h:25). -/
def RESULT_VERTEX_COMPONENT_LENGTH : ℕ := 36

/-- `SURFACE_CLIP_CORNER_COUNT` (calculation_host.cpp:150). -/
def SURFACE_CLIP_CORNER_COUNT : ℕ := 4

/-- `convertToSizeT` (calculation_host.cpp:152): rejects negatives, rounds
half up (`floor(value + 0.5)`), and rejects a rounded value that does
not survive the double↔size_t cast round-trip — on wasm32 the saturating
`size_t` cast of any value `≥ 2^32` comes back different.  Over ℚ the
finiteness guards are vacuous. -/
def convertToSizeT (value : ℚ) : Option ℕ :=
  if value < 0 then none
  else
    let truncated := ⌊value + 1 / 2⌋.toNat
    if SIZE_T_LIMIT ≤ truncated then none else some truncated

/-- `validateSpan` (calculation_host.cpp:231): `offset ≤ total` and
`length ≤ total - offset` (size_t subtraction, guarded by the first
test). -/
def validateSpan (totalLength offset length : ℕ) : Bool :=
  offset ≤ totalLength && length ≤ totalLength - offset

/-- `initializeResultHeader` (calculation_host.cpp:716): writes the 7
header slots — prepared count 0, item stride, vertex component count,
surface corner count, flags 0, two reserved 0 — and touches nothing
else. -/
def initializeResultHeader (result : List ℚ) : List ℚ :=
  ((((((result.set 0 0).set 1 (RESULT_ITEM_STRIDE : ℚ)).set 2
      (RESULT_VERTEX_COMPONENT_LENGTH : ℚ)).set 3
      (SURFACE_CLIP_CORNER_COUNT : ℚ)).set 4 0).set 5 0).set 6 0

/-- The validation prefix of `prepareDrawSpriteImages`
(calculation_host.cpp:2694-2771), with the post-validation pipeline
abstracted as `rest` (it returns the final result-buffer contents and
the source's corresponding code path always returns `true`).  Null
pointers return `false` before the header is touched; every validation
failure returns `false` with the output buffer reset-header-only. -/
def prepareDrawSpriteImagesBody (rest : List ℚ → List ℚ → List ℚ)
    (params result : List ℚ) : Bool × Option (List ℚ) :=
    let result1 := initializeResultHeader result
    let failed : Bool × Option (List ℚ) := (false, some result1)
    match convertToSizeT (params.getD 0 0) with
    | none => failed
    | some totalLength =>
      if totalLength < INPUT_HEADER_LENGTH then failed
      else
        match convertToSizeT (params.getD 1 0) with
        | none => failed
        | some frameConstCount =>
          if frameConstCount ≠ INPUT_FRAME_CONSTANT_LENGTH then failed
          else
            match convertToSizeT (params.getD 2 0) with
            | none => failed
            | some matrixOffset =>
              if !validateSpan totalLength matrixOffset INPUT_MATRIX_LENGTH then
                failed
              else
                match convertToSizeT (params.getD 3 0),
                    convertToSizeT (params.getD 4 0) with
                | none, _ => failed
                | some _, none => failed
                | some resourceCount, some resourceOffset =>
                  if !validateSpan totalLength resourceOffset
                      (resourceCount * RESOURCE_STRIDE % SIZE_T_LIMIT) then
                    failed
                  else
                    match convertToSizeT (params.getD 5 0),
                        convertToSizeT (params.getD 6 0) with
                    | none, _ => failed
                    | some _, none => failed
                    | some spriteCount, some spriteOffset =>
                      if !validateSpan totalLength spriteOffset
                          (spriteCount * SPRITE_STRIDE % SIZE_T_LIMIT) then
                        failed
                      else
                        match convertToSizeT (params.getD 7 0),
                            convertToSizeT (params.getD 8 0) with
                        | none, _ => failed
                        | some _, none => failed
                        | some itemCount, some itemOffset =>
                          if !validateSpan totalLength itemOffset
                              (itemCount * ITEM_STRIDE % SIZE_T_LIMIT) then
                            failed
                          else
                            if !validateSpan totalLength INPUT_HEADER_LENGTH
                                frameConstCount then failed
                            else (true, some (rest params result1))

/-- `prepareDrawSpriteImages` (calculation_host.cpp:2694): null pointers
return `false` before the output header is touched. -/
def prepareDrawSpriteImages (rest : List ℚ → List ℚ → List ℚ)
    (paramsPtr : Option (List ℚ)) (resultPtr : Option (List ℚ)) :
    Bool × Option (List ℚ) :=
  match paramsPtr, resultPtr with
  | none, r => (false, r)
  | some _, none => (false, none)
  | some params, some result => prepareDrawSpriteImagesBody rest params result

/-! ## The extern entry points

The calculation-host entry points (calculation_host.cpp:2635-2692 and
`prepareDrawSpriteImages`) return a `bool`; a null pointer yields
`(false, no write)`.  The projection-host entry points
(projection_host.cpp:99-355) return **void**: a null pointer makes them
return early without writing, and a failing computation writes a
NaN-sentinel (screen/inverse projection) or the neutral `1.0`
(perspective ratio) into the out-buffer.  `EntryOutcome` records what a
call did to its out-buffer: nothing, the NaN sentinel, or a value. -/

set_option genInjectivity true in
/-- What a void entry point did to its out-parameter. -/
inductive EntryOutcome (α : Type) where
  | noWrite : EntryOutcome α
  | nanWrite : EntryOutcome α
  | wrote : α → EntryOutcome α

/-- The `context` buffer of the projection-host `project` / `unproject`
entry points: `worldSize` followed by a 16-double matrix. -/
structure ProjectContextBuf where
  worldSize : ℝ
  matrix : Mat4

noncomputable section EntryPoints

/-- `fromLngLat` entry point (projection_host.cpp:99): void; null out →
no write; otherwise always writes the mercator triple. -/
def fromLngLatEntry (lng lat altitude : ℝ) (outPtr : Bool) :
    EntryOutcome (ℝ × ℝ × ℝ) :=
  if !outPtr then .noWrite else .wrote (fromLngLat lng lat altitude)

/-- `project` entry point (projection_host.cpp:167): void; null context or
out → no write; non-positive world size or a failed projection → NaN
sentinel; otherwise writes `(x, y, clipW)`. -/
def projectEntry (lng lat altitude : ℝ) (context : Option ProjectContextBuf)
    (outPtr : Bool) : EntryOutcome (ℝ × ℝ × ℝ) :=
  match context with
  | none => .noWrite
  | some ctx =>
    if !outPtr then .noWrite
    else if ctx.worldSize ≤ 0 then .nanWrite
    else
      let clip := projectClipVals lng lat altitude ctx.worldSize ctx.matrix
      if clip.2.2 ≤ 0 then .nanWrite
      else .wrote (clip.1 / clip.2.2, clip.2.1 / clip.2.2, clip.2.2)

/-- `unproject` entry point (projection_host.cpp:271): void; null context
or out → no write; invalid world size or a failed unprojection → NaN
sentinel. -/
def unprojectEntry (pointX pointY : ℝ) (context : Option ProjectContextBuf)
    (outPtr : Bool) : EntryOutcome (ℝ × ℝ) :=
  match context with
  | none => .noWrite
  | some ctx =>
    if !outPtr then .noWrite
    else if ctx.worldSize ≤ 0 then .nanWrite
    else
      match unproject pointX pointY ctx.worldSize ctx.matrix with
      | none => .nanWrite
      | some lngLat => .wrote lngLat

/-- `calculatePerspectiveRatio` entry point (projection_host.cpp:334): void;
any null pointer → no write; otherwise always writes, the neutral `1.0`
standing in for every failure. -/
def calculatePerspectiveRatioEntry (lng lat altitude : ℝ)
    (cachedMercator : Option (ℝ × ℝ × ℝ)) (context : Option (ℝ × Mat4))
    (outPtr : Bool) : EntryOutcome ℝ :=
  match context, cachedMercator with
  | none, _ => .noWrite
  | _, none => .noWrite
  | some (cameraToCenterDistance, m), some cached =>
    if !outPtr then .noWrite
    else
      match calculatePerspectiveRatioCore lng lat altitude (some cached)
          cameraToCenterDistance m with
      | none => .wrote 1
      | some ratio => .wrote ratio

/-- `projectLngLatToClipSpace` entry point (calculation_host.cpp:2637):
bool; null pointers → `(false, no write)`. -/
def projectLngLatToClipSpaceEntry (lng lat altitude : ℝ)
    (matrixPtr : Option Mat4) (outPtr : Bool) :
    Bool × Option (ℝ × ℝ × ℝ × ℝ) :=
  match matrixPtr with
  | none => (false, none)
  | some m =>
    if !outPtr then (false, none)
    else
      match projectLngLatToClipSpace lng lat altitude m with
      | none => (false, none)
      | some clip => (true, some clip)

/-- `calculateBillboardDepthKey` entry point (calculation_host.cpp:2649):
bool; null pointers → `(false, no write)`. -/
def calculateBillboardDepthKeyEntry (centerX centerY worldSize : ℝ)
    (inverseMatrixPtr mercatorMatrixPtr : Option Mat4) (outPtr : Bool) :
    Bool × Option ℝ :=
  match inverseMatrixPtr, mercatorMatrixPtr with
  | none, _ => (false, none)
  | _, none => (false, none)
  | some inverseMatrix, some mercatorMatrix =>
    if !outPtr then (false, none)
    else
      match calculateBillboardDepthKey centerX centerY worldSize inverseMatrix
          mercatorMatrix with
      | none => (false, none)
      | some key => (true, some key)

/-- `calculateSurfaceDepthKey` entry point (calculation_host.cpp:2663):
bool; null pointers → `(false, no write)`. -/
def calculateSurfaceDepthKeyEntry (baseLng baseLat baseAltitude : ℝ)
    (displacementsPtr : Option (List (ℝ × ℝ))) (indicesPtr : Option (List ℤ))
    (mercatorMatrixPtr : Option Mat4) (applyBias : ℤ)
    (biasNdc minClipZEpsilon : ℝ) (outPtr : Bool) : Bool × Option ℝ :=
  match displacementsPtr, indicesPtr, mercatorMatrixPtr with
  | none, _, _ => (false, none)
  | _, none, _ => (false, none)
  | _, _, none => (false, none)
  | some displacements, some indices, some mercatorMatrix =>
    if !outPtr then (false, none)
    else
      match calculateSurfaceDepthKey baseLng baseLat baseAltitude displacements
          indices mercatorMatrix (applyBias ≠ 0) biasNdc minClipZEpsilon with
      | none => (false, none)
      | some key => (true, some key)

end EntryPoints

/-! ## Concrete matrices and items for the depth-key and origin-reference
analyses -/

noncomputable section Examples

/-- The identity 4×4 matrix. -/
def idMat4 : Mat4 := fun i => if i = 0 ∨ i = 5 ∨ i = 10 ∨ i = 15 then 1 else 0

/-- A perspective-style mercator matrix over the equator: an equatorial
mercator point `(x, 1/2, 0)` gets camera depth `clipW = x` and
`clipZ = 2·x - 3` (NDC z is `-1` at `x = 1`, `+1` at `x = 3`). -/
def axialPerspMat : Mat4 :=
  fun i => if i = 2 then 2 else if i = 3 then 1 else if i = 14 then -3 else 0

/-- A pixel matrix reading back the elevation: `clipX = elevation`,
`clipY = 0`, `clipW = 1`. -/
def zElevMat : Mat4 := fun i => if i = 8 ∨ i = 15 then 1 else 0

/-- An item record whose origin-reference index field is `originTargetIndex`
and whose other origin fields are the `-1` sentinels; surface mode, unit
scale, zero anchor/offset/rotation, geodetic position `(0, 0)` at
altitude 1. -/
def originCexEntry (originTargetIndex : ℝ) : InputItemEntry where
  spriteHandle := 1
  resourceHandle := 1
  originTargetIndex := originTargetIndex
  originUseResolvedAnchor := 0
  mode := 0
  scale := 1
  opacity := 1
  anchorX := 0
  anchorY := 0
  offsetMeters := 0
  offsetDeg := 0
  displayedRotateDeg := 0
  resolvedBaseRotateDeg := 0
  rotateDeg := 0
  order := 0
  subLayer := 0
  originReferenceKey := -1
  bucketReferenceKey := -1
  bucketReferenceIndex := -1
  imageHandle := 1
  spriteLng := 0
  spriteLat := 0
  spriteZ := 1
  originSubLayer := -1
  originOrder := -1
  originUseAnchor := 0
  bucketIndex := 0

/-- The decoded bucket item for `originCexEntry`: projected screen point
`(1/2, 1/2)`, geodetic location `(0, 0, 1)`. -/
def originCexItem (originTargetIndex : ℝ) : BucketItem where
  entry := originCexEntry originTargetIndex
  index := 0
  resource := none
  spriteLocation := ⟨0, 0, 1⟩
  projected := ⟨1 / 2, 1 / 2⟩
  projectedValid := true
  spriteHandle := 1
  rotation := ⟨0, 0, 1⟩

/-- Projection context: unit world size, identity inverse pixel matrix,
elevation-reading pixel matrix, no mercator matrix. -/
def originCexCtx : ProjectionContext where
  worldSize := 1
  cameraToCenterDistance := 1
  mercatorMatrix := none
  pixelMatrix := some zElevMat
  pixelMatrixInverse := some idMat4

/-- Frame constants with `baseMetersPerPixel = 0` (surface quads get zero
world size) and a neutral viewport. -/
def originCexFrame : FrameConstants where
  worldSize := 1
  baseMetersPerPixel := 0
  spriteMinPixel := 0
  spriteMaxPixel := 0
  drawingBufferWidth := 1
  drawingBufferHeight := 1
  pixelRatio := 1
  zoomScaleFactor := 1

/-- A ready 1×1 resource. -/
def originCexResource : ResourceInfo where
  handle := 1
  width := 1
  height := 1
  textureReady := true

/-- An entry with its origin-reference fields cleared to the sentinels. -/
def clearOriginFields (e : InputItemEntry) : InputItemEntry :=
  { e with originTargetIndex := -1, originSubLayer := -1, originOrder := -1 }

/-- A bucket item with its origin-reference fields cleared. -/
def clearOrigin (b : BucketItem) : BucketItem :=
  { b with entry := clearOriginFields b.entry }

end Examples

/-! ## Theorems -/

/-- The header reset never touches a slot past index 6, and leaves the
prepared count (slot 0) at 0. -/
theorem initializeResultHeader_spec (result : List ℚ) :
    (initializeResultHeader result).getD 0 0 = 0 ∧
      ∀ i, 7 ≤ i → (initializeResultHeader result).getD i 0 = result.getD i 0 := by
  constructor
  · unfold initializeResultHeader
    simp [List.getD, List.getElem?_set]
    by_cases h : 0 < result.length <;> simp [h]
  · intro i hi
    unfold initializeResultHeader
    have h0 : i ≠ 0 := by omega
    have h1 : i ≠ 1 := by omega
    have h2 : i ≠ 2 := by omega
    have h3 : i ≠ 3 := by omega
    have h4 : i ≠ 4 := by omega
    have h5 : i ≠ 5 := by omega
    have h6 : i ≠ 6 := by omega
    simp [List.getD, List.getElem?_set, h0, h1, h2, h3, h4, h5, h6,
      (Ne.symm h0), (Ne.symm h1), (Ne.symm h2), (Ne.symm h3), (Ne.symm h4),
      (Ne.symm h5), (Ne.symm h6)]

/-- **C1 counterexample** (size_t wrap-around defeats the bounds check).
The span lengths are multiplied in 32-bit `size_t`: with
`itemCount = 1749801491` (the inverse of 27 modulo `2^32`, an exact
double accepted by `convertToSizeT`), the declared item span
`itemCount · 27` wraps to 1, so a buffer of total length 100 passes
`validateSpan` although the span read out of bounds is astronomically
larger — the call returns `true`, not `false`. -/
theorem prepareDrawSpriteImages_wrapped_span_accepted :
    (100 : ℕ) < 63 + 1749801491 * ITEM_STRIDE ∧
      1749801491 * ITEM_STRIDE % SIZE_T_LIMIT = 1 ∧
      prepareDrawSpriteImages (fun _ r => r)
          (some [100, 24, 15, 0, 0, 0, 0, 1749801491, 63]) (some [9])
        = (true, some (initializeResultHeader [9])) := by
  refine ⟨by decide, by decide, ?_⟩
  show prepareDrawSpriteImagesBody (fun _ r => r) _ _ = _
  unfold prepareDrawSpriteImagesBody
  norm_num [convertToSizeT, validateSpan, SIZE_T_LIMIT, INPUT_HEADER_LENGTH,
    INPUT_FRAME_CONSTANT_LENGTH, INPUT_MATRIX_LENGTH, RESOURCE_STRIDE,
    SPRITE_STRIDE, ITEM_STRIDE, (by decide : Int.toNat 24 = 24),
    (by decide : Int.toNat 100 = 100), (by decide : Int.toNat 15 = 15),
    (by decide : Int.toNat 63 = 63),
    (by decide : Int.toNat 1749801491 = 1749801491)]

/-- **C1** (corrected: bounds rejection below the wrap threshold).  For
every input buffer whose header declares an item span reading out of
bounds (`itemOffset + itemCount·27 > totalLength`) whose size_t product
does not wrap (`itemCount·27 < 2^32`), `prepareDrawSpriteImages`
returns `false` — for every possible post-validation pipeline `rest` —
and the output buffer is exactly the input output-buffer with the reset
header written over slots 0–6: the prepared count (slot 0) is left at 0
and every slot from index 7 on is unchanged.  (Without the no-wrap
bound the rejection is false of the source — see the counterexample.) -/
theorem prepareDrawSpriteImages_bounds_rejection
    (rest : List ℚ → List ℚ → List ℚ) (params result : List ℚ)
    (totalLength itemCount itemOffset : ℕ)
    (h0 : convertToSizeT (params.getD 0 0) = some totalLength)
    (h7 : convertToSizeT (params.getD 7 0) = some itemCount)
    (h8 : convertToSizeT (params.getD 8 0) = some itemOffset)
    (hfit : itemCount * ITEM_STRIDE < SIZE_T_LIMIT)
    (hOOB : totalLength < itemOffset + itemCount * ITEM_STRIDE) :
    prepareDrawSpriteImages rest (some params) (some result)
        = (false, some (initializeResultHeader result)) ∧
      (initializeResultHeader result).getD 0 0 = 0 ∧
      ∀ i, 7 ≤ i → (initializeResultHeader result).getD i 0 = result.getD i 0 := by
  refine ⟨?_, (initializeResultHeader_spec result).1,
    (initializeResultHeader_spec result).2⟩
  have hspan : validateSpan totalLength itemOffset
      (itemCount * ITEM_STRIDE % SIZE_T_LIMIT) = false := by
    rw [Nat.mod_eq_of_lt hfit]
    unfold validateSpan
    simp only [Bool.and_eq_false_iff, decide_eq_false_iff_not, not_le]
    omega
  show prepareDrawSpriteImagesBody rest params result = _
  unfold prepareDrawSpriteImagesBody
  rw [h0, h7, h8]
  simp only [hspan, Bool.not_false, if_true]
  repeat' split
  all_goals rfl

/-- Witness for C1: a 9-double header declaring `totalLength = 3`,
`itemCount = 1`, `itemOffset = 15` (so `15 + 1·27 > 3`) is rejected with
the reset header only. -/
theorem prepareDrawSpriteImages_bounds_rejection_witness :
    prepareDrawSpriteImages (fun _ r => r)
        (some [3, 24, 0, 0, 0, 0, 0, 1, 15]) (some [9, 9, 9, 9, 9, 9, 9, 9])
        = (false, some (initializeResultHeader [9, 9, 9, 9, 9, 9, 9, 9])) ∧
      (initializeResultHeader [9, 9, 9, 9, 9, 9, 9, 9]).getD 0 0 = 0 ∧
      ∀ i, 7 ≤ i → (initializeResultHeader [9, 9, 9, 9, 9, 9, 9, 9]).getD i 0
        = ([9, 9, 9, 9, 9, 9, 9, 9] : List ℚ).getD i 0 :=
  prepareDrawSpriteImages_bounds_rejection (fun _ r => r)
    [3, 24, 0, 0, 0, 0, 0, 1, 15] [9, 9, 9, 9, 9, 9, 9, 9] 3 1 15
    (by norm_num [convertToSizeT, SIZE_T_LIMIT]; try decide)
    (by norm_num [convertToSizeT, SIZE_T_LIMIT]; try decide)
    (by norm_num [convertToSizeT, SIZE_T_LIMIT]; try decide)
    (by decide) (by decide)

/-- The four-key tuple, lexicographically ordered, that the depth
comparator realises. -/
def sortKey (a : DepthSortEntry) : ℚ ×ₗ (ℚ ×ₗ (ℤ ×ₗ ℚ)) :=
  toLex (a.depthKey, toLex (a.order, toLex (a.spriteHandle, a.imageHandle)))

/-- The comparator is exactly the strict lexicographic order on
`(depthKey, order, spriteHandle, imageHandle)`. -/
theorem depthLess_iff_lt (a b : DepthSortEntry) :
    depthLess a b = true ↔ sortKey a < sortKey b := by
  unfold depthLess sortKey
  rw [Prod.Lex.lt_iff, Prod.Lex.lt_iff, Prod.Lex.lt_iff]
  by_cases h1 : a.depthKey = b.depthKey <;>
    by_cases h2 : a.order = b.order <;>
      by_cases h3 : a.spriteHandle = b.spriteHandle <;>
        simp [h1, h2, h3]

/-- `depthKeeps a b` (the comparator does not order `b` before `a`) is the
non-strict lexicographic order. -/
theorem depthKeeps_iff_le (a b : DepthSortEntry) :
    depthKeeps a b ↔ sortKey a ≤ sortKey b := by
  unfold depthKeeps
  rw [← not_lt, ← depthLess_iff_lt]
  constructor
  · intro h hlt
    rw [h] at hlt
    exact Bool.false_ne_true hlt
  · intro h
    exact Bool.eq_false_iff.mpr fun hc => h hc

instance : IsTotal DepthSortEntry depthKeeps :=
  ⟨fun a b => (le_total (sortKey a) (sortKey b)).imp
    (depthKeeps_iff_le a b).mpr (depthKeeps_iff_le b a).mpr⟩

instance : IsTrans DepthSortEntry depthKeeps :=
  ⟨fun a b c hab hbc => (depthKeeps_iff_le a c).mpr
    (le_trans ((depthKeeps_iff_le a b).mp hab) ((depthKeeps_iff_le b c).mp hbc))⟩

/-- **C2** (tie-break determinism of the depth sort).  For every collected
item list: (i) in the sorted output, for every pair of entries the
earlier one is never strictly greater under the four-key lexicographic
chain — equivalently, whenever one entry is strictly smaller under
`(depthKey, order, spriteHandle, imageHandle)` it precedes the other;
(ii) the output is a permutation of the input; (iii) sorting the same
input twice yields the identical permutation (the sort is a pure
function of its input). -/
theorem depthSort_four_key_deterministic (items : List DepthSortEntry) :
    (sortDepthItems items).Pairwise (fun a b => depthLess b a = false) ∧
      (sortDepthItems items).Perm items ∧
      sortDepthItems items = sortDepthItems items := by
  refine ⟨?_, List.perm_insertionSort depthKeeps items, rfl⟩
  have h := List.sorted_insertionSort depthKeeps items
  exact h

/-- A successful `_calculatePerspectiveRatio` result is strictly
positive. -/
theorem calculatePerspectiveRatioCore_pos (lng lat altitude : ℝ)
    (cached : Option (ℝ × ℝ × ℝ)) (cameraToCenterDistance : ℝ) (m : Mat4)
    (ratio : ℝ)
    (h : calculatePerspectiveRatioCore lng lat altitude cached
      cameraToCenterDistance m = some ratio) : 0 < ratio := by
  unfold calculatePerspectiveRatioCore at h
  simp only [] at h
  split_ifs at h with h1 h2
  all_goals simp_all
  rw [← h]
  exact div_pos h2 h1

/-- **C10** (perspective ratio is always a usable positive scale).  The
host-side perspective-ratio helper returns a strictly positive value for
every projection context, sprite location and cached mercator (each
failure path yields the neutral `1.0`); and for a positive
meters-per-pixel the derived effective pixels-per-meter is computed from
the ratio clamped to a positive value, hence is itself strictly
positive. -/
theorem perspectiveRatio_positive_and_effective_ppm :
    (∀ (ctx : ProjectionContext) (location : SpriteLocation)
        (cached : Option (ℝ × ℝ × ℝ)),
        0 < calculatePerspectiveRatio ctx location cached) ∧
      ∀ metersPerPixelAtLatitude perspectiveRatio : ℝ,
        0 < metersPerPixelAtLatitude →
        0 < calculateEffectivePixelsPerMeter metersPerPixelAtLatitude
          perspectiveRatio := by
  constructor
  · intro ctx location cached
    unfold calculatePerspectiveRatio
    rcases ctx.mercatorMatrix with _ | m
    · norm_num
    · simp only
      split_ifs with hdist
      · norm_num
      · rcases cached with _ | c
        · simp only
          rcases hcore : calculatePerspectiveRatioCore location.lng location.lat
              location.z (some (calculateMercatorCoordinate location))
              ctx.cameraToCenterDistance m with _ | ratio
          · norm_num
          · have hpos := calculatePerspectiveRatioCore_pos _ _ _ _ _ _ _ hcore
            simp [hpos]
        · simp only
          rcases hcore : calculatePerspectiveRatioCore location.lng location.lat
              location.z (some c) ctx.cameraToCenterDistance m with _ | ratio
          · norm_num
          · have hpos := calculatePerspectiveRatioCore_pos _ _ _ _ _ _ _ hcore
            simp [hpos]
  · intro mpp ratio hmpp
    unfold calculateEffectivePixelsPerMeter
    rw [if_neg (not_le.mpr hmpp)]
    have h1 : (0:ℝ) < 1 / mpp := by positivity
    by_cases hr : 0 < ratio
    · simpa [hr] using mul_pos h1 hr
    · simpa [hr] using h1

/-- **C9** (inverse projection: latitude clamp and parallel ray).
(i) whenever `_unproject` succeeds, the returned latitude lies within
`[-85.051129, 85.051129]` (`clamp` against `MAX_MERCATOR_LATITUDE`);
(ii) when the unprojection ray is parallel to the `z = 0` plane — the
interpolation denominator `world1Z - world0Z` is `0` — the function does
not fail for that reason: with non-degenerate homogeneous `w`s and a
nonzero world size it succeeds, returning exactly the ray's `z = 0`
clip-space endpoint (the `t = 0` point `world0`). -/
theorem unproject_lat_clamped_and_parallel_ray :
    (∀ (pointX pointY worldSize : ℝ) (m : Mat4) (lng lat : ℝ),
        unproject pointX pointY worldSize m = some (lng, lat) →
        -MAX_MERCATOR_LATITUDE ≤ lat ∧ lat ≤ MAX_MERCATOR_LATITUDE) ∧
      ∀ (pointX pointY worldSize : ℝ) (m : Mat4),
        (unprojCoord m pointX pointY 0).2.2.2 ≠ 0 →
        (unprojCoord m pointX pointY 1).2.2.2 ≠ 0 →
        worldSize ≠ 0 →
        (unprojCoord m pointX pointY 1).2.2.1 /
            (unprojCoord m pointX pointY 1).2.2.2 =
          (unprojCoord m pointX pointY 0).2.2.1 /
            (unprojCoord m pointX pointY 0).2.2.2 →
        unproject pointX pointY worldSize m
          = some (lngFromMercatorX ((unprojCoord m pointX pointY 0).1 /
                (unprojCoord m pointX pointY 0).2.2.2 / worldSize),
              clamp (latFromMercatorY ((unprojCoord m pointX pointY 0).2.1 /
                  (unprojCoord m pointX pointY 0).2.2.2 / worldSize))
                (-MAX_MERCATOR_LATITUDE) MAX_MERCATOR_LATITUDE) := by
  have hclamp : ∀ v : ℝ,
      -MAX_MERCATOR_LATITUDE ≤ clamp v (-MAX_MERCATOR_LATITUDE)
          MAX_MERCATOR_LATITUDE ∧
        clamp v (-MAX_MERCATOR_LATITUDE) MAX_MERCATOR_LATITUDE
          ≤ MAX_MERCATOR_LATITUDE := by
    intro v
    unfold clamp MAX_MERCATOR_LATITUDE
    constructor
    · exact le_max_right _ _
    · rw [max_le_iff]
      constructor
      · exact min_le_right _ _
      · norm_num
  constructor
  · intro pointX pointY worldSize m lng lat h
    unfold unproject at h
    simp only [] at h
    split_ifs at h
    all_goals
      rw [Option.some_inj, Prod.mk.injEq] at h
      rw [← h.2]
      exact hclamp _
  · intro pointX pointY worldSize m h0 h1 hws hden
    unfold unproject
    simp only []
    rw [if_neg (by push_neg; exact ⟨h0, h1⟩), if_neg hws]
    have hd : (unprojCoord m pointX pointY 1).2.2.1 /
        (unprojCoord m pointX pointY 1).2.2.2 -
        (unprojCoord m pointX pointY 0).2.2.1 /
        (unprojCoord m pointX pointY 0).2.2.2 = 0 := by
      rw [hden]
      ring
    rw [if_pos hd]
    norm_num

/-- A `(0,0)` anchor produces no surface anchor shift. -/
theorem surfaceAnchorShift_zero (halfWidthMeters halfHeightMeters s c : ℝ) :
    calculateSurfaceAnchorShiftMeters halfWidthMeters halfHeightMeters
      (some ⟨0, 0⟩) s c = ⟨0, 0⟩ := by
  unfold calculateSurfaceAnchorShiftMeters
  split_ifs with h1
  · rfl
  · simp

/-- A zero-meter offset produces no surface offset shift. -/
theorem surfaceOffset_zero (offsetDeg imageScale zoomScaleFactor
    sizeScaleAdjustment : ℝ) :
    calculateSurfaceOffsetMeters (some ⟨0, offsetDeg⟩) imageScale
      zoomScaleFactor sizeScaleAdjustment = ⟨0, 0⟩ := by
  unfold calculateSurfaceOffsetMeters
  simp

/-- Displacing by `(0, 0)` meters is the identity on a location. -/
theorem applySurfaceDisplacement_zero (lng lat z : ℝ) :
    applySurfaceDisplacement lng lat z 0 0 = (lng, lat, z) := by
  unfold applySurfaceDisplacement
  simp

/-- Definitional unfolding of `calculateSurfaceCenterPosition`. -/
theorem calculateSurfaceCenterPosition_eq (params : SurfaceCenterParams) :
    calculateSurfaceCenterPosition params =
      (let worldDims := calculateSurfaceWorldDimensions params.imageWidth
        params.imageHeight params.baseMetersPerPixel params.imageScale
        params.zoomScaleFactor params.effectivePixelsPerMeter
        params.spriteMinPixel params.spriteMaxPixel
      let halfWidthMeters := worldDims.width * 0.5
      let halfHeightMeters := worldDims.height * 0.5
      let anchorShiftMeters := calculateSurfaceAnchorShiftMeters halfWidthMeters
        halfHeightMeters params.anchor params.sinNegativeRotation
        params.cosNegativeRotation
      let offsetMeters := calculateSurfaceOffsetMeters params.offset
        params.imageScale params.zoomScaleFactor worldDims.scaleAdjustment
      let totalDisplacement : SurfaceCorner :=
        ⟨anchorShiftMeters.east + offsetMeters.east,
         anchorShiftMeters.north + offsetMeters.north⟩
      let displacedRaw := applySurfaceDisplacement params.baseLngLat.lng
        params.baseLngLat.lat params.baseLngLat.z totalDisplacement.east
        totalDisplacement.north
      let displaced : SpriteLocation :=
        ⟨displacedRaw.1, displacedRaw.2.1, displacedRaw.2.2⟩
      let center := surfaceProjectPoint params displaced
      if params.resolveAnchorless then
        let anchorlessDisplacement := offsetMeters
        let anchorlessRaw := applySurfaceDisplacement params.baseLngLat.lng
          params.baseLngLat.lat params.baseLngLat.z anchorlessDisplacement.east
          anchorlessDisplacement.north
        let anchorlessLngLat : SpriteLocation :=
          ⟨anchorlessRaw.1, anchorlessRaw.2.1, anchorlessRaw.2.2⟩
        { center := center
          worldDimensions := worldDims
          totalDisplacement := totalDisplacement
          displacedLngLat := displaced
          anchorlessCenter := surfaceProjectPoint params anchorlessLngLat
          anchorlessDisplacement := some anchorlessDisplacement
          anchorlessLngLat := some anchorlessLngLat }
      else
        { center := center
          worldDimensions := worldDims
          totalDisplacement := totalDisplacement
          displacedLngLat := displaced
          anchorlessCenter := none
          anchorlessDisplacement := none
          anchorlessLngLat := none }) := rfl

/-- **C6** (anchor composition idempotence).  With anchor `(0,0)` and
offset `(0,0)`: a billboard center is exactly the base projected screen
point, and a surface center is exactly the projection of the unshifted
base lng/lat (the base projected point), in both cases for every other
parameter value. -/
theorem anchor_offset_zero_center_is_base :
    (∀ (base : SpriteScreenPoint) (imageWidth imageHeight baseMetersPerPixel
        imageScale zoomScaleFactor effectivePixelsPerMeter spriteMinPixel
        spriteMaxPixel : ℝ) (rotation : RotationCache),
        (calculateBillboardCenterPosition base imageWidth imageHeight
          baseMetersPerPixel imageScale zoomScaleFactor effectivePixelsPerMeter
          spriteMinPixel spriteMaxPixel rotation (some ⟨0, 0⟩)
          (some ⟨0, 0⟩)).center = base) ∧
      ∀ params : SurfaceCenterParams, params.anchor = some ⟨0, 0⟩ →
        params.offset = some ⟨0, 0⟩ →
        (calculateSurfaceCenterPosition params).center
          = surfaceProjectPoint params params.baseLngLat := by
  constructor
  · intro base imageWidth imageHeight baseMetersPerPixel imageScale
      zoomScaleFactor effectivePixelsPerMeter spriteMinPixel spriteMaxPixel
      rotation
    unfold calculateBillboardCenterPosition calculateBillboardOffsetPixels
    simp
  · intro params hanchor hoffset
    rw [calculateSurfaceCenterPosition_eq]
    simp only [hanchor, hoffset, surfaceAnchorShift_zero, surfaceOffset_zero,
      add_zero, zero_add, applySurfaceDisplacement_zero]
    split_ifs <;> rfl

/-- `std::max` on finite doubles is the rational maximum. -/
theorem dd_stdMax_fin (a b : ℚ) :
    DD.stdMax (.fin a) (.fin b) = .fin (Max.max a b) := by
  show (if (DD.fin a).blt (.fin b) then DD.fin b else DD.fin a) = _
  rw [DD.blt_fin]
  rcases le_or_lt b a with h | h
  · rw [if_neg (by simpa using not_lt.mpr h), max_eq_left h]
  · rw [if_pos (by simpa using h), max_eq_right h.le]

/-- The clamp on finite positive sizes: both dimensions are scaled by one
positive factor `f`, the scale adjustment is exactly `f`, and the larger
dimension lands on `min mx (max mn largest)` — clamped into `[mn, mx]`. -/
theorem ddClampSpritePixelSize_fin (w h mn mx : ℚ) (hw : 0 < w) (hh : 0 < h)
    (hmn : 0 < mn) (hmx : mn ≤ mx) :
    ∃ f : ℚ, 0 < f ∧
      ddClampSpritePixelSize (.fin w) (.fin h) (.fin mn) (.fin mx)
        = ⟨.fin (w * f), .fin (h * f), .fin f⟩ ∧
      Max.max (w * f) (h * f) = Min.min mx (Max.max mn (Max.max w h)) := by
  have hL : 0 < Max.max w h := lt_max_of_lt_left hw
  have hLne : Max.max w h ≠ 0 := ne_of_gt hL
  have hmaxmul : ∀ f : ℚ, 0 < f → Max.max (w * f) (h * f) = Max.max w h * f := by
    intro f hf
    rw [max_mul_of_nonneg _ _ hf.le]
  have hadj : Max.max w h * (mn / Max.max w h) = mn := by
    field_simp
  have hadjx : Max.max w h * (mx / Max.max w h) = mx := by
    field_simp
  by_cases h1 : Max.max w h < mn
  · refine ⟨mn / Max.max w h, div_pos hmn hL, ?_, ?_⟩
    · unfold ddClampSpritePixelSize
      rw [dd_stdMax_fin]
      simp only [DD.isFinite_fin, DD.ble_fin, DD.blt_fin, Bool.not_true,
        Bool.false_or, Bool.and_eq_true, decide_eq_true_eq]
      simp only [if_neg (not_le.mpr hL),
        if_pos (show 0 < mn ∧ Max.max w h < mn from ⟨hmn, h1⟩)]
      simp only [DD.div_fin, if_neg hLne, DD.mul_fin, hadj]
      simp only [DD.blt_fin, decide_eq_true_eq]
      simp only [if_neg (show ¬(0 < mx ∧ mx < mn) from
        fun hc => absurd hc.2 (not_lt.mpr hmx))]
      try simp only [DD.mul_fin, mul_one]
      try simp only [DDClampResult.mk.injEq, DD.fin.injEq]
      try exact ⟨by ring, by ring, by ring⟩
    · rw [hmaxmul _ (div_pos hmn hL), hadj, max_eq_left h1.le, min_eq_right hmx]
  · by_cases h2 : mx < Max.max w h
    · refine ⟨mx / Max.max w h, div_pos (lt_of_lt_of_le hmn hmx) hL, ?_, ?_⟩
      · unfold ddClampSpritePixelSize
        rw [dd_stdMax_fin]
        simp only [DD.isFinite_fin, DD.ble_fin, DD.blt_fin, Bool.not_true,
          Bool.false_or, Bool.and_eq_true, decide_eq_true_eq]
        simp only [if_neg (not_le.mpr hL),
          if_neg (show ¬(0 < mn ∧ Max.max w h < mn) from fun hc => absurd hc.2 h1)]
        simp only [DD.mul_fin, mul_one]
        simp only [DD.blt_fin, decide_eq_true_eq]
        simp only [if_pos (show 0 < mx ∧ mx < Max.max w h from
          ⟨lt_of_lt_of_le hmn hmx, h2⟩)]
        simp only [DD.div_fin, if_neg hLne, DD.mul_fin]
        try simp only [DD.mul_fin, mul_one]
        try simp only [DDClampResult.mk.injEq, DD.fin.injEq]
        try exact ⟨by ring, by ring, by ring⟩
      · rw [hmaxmul _ (div_pos (lt_of_lt_of_le hmn hmx) hL), hadjx,
          max_eq_right (not_lt.mp h1), min_eq_left h2.le]
    · refine ⟨1, one_pos, ?_, ?_⟩
      · unfold ddClampSpritePixelSize
        rw [dd_stdMax_fin]
        simp only [DD.isFinite_fin, DD.ble_fin, DD.blt_fin, Bool.not_true,
          Bool.false_or, Bool.and_eq_true, decide_eq_true_eq]
        simp only [if_neg (not_le.mpr hL),
          if_neg (show ¬(0 < mn ∧ Max.max w h < mn) from fun hc => absurd hc.2 h1)]
        simp only [DD.mul_fin, mul_one]
        simp only [DD.blt_fin, decide_eq_true_eq]
        simp only [if_neg (show ¬(0 < mx ∧ mx < Max.max w h) from
          fun hc => absurd hc.2 h2)]
        try simp only [DD.mul_fin, mul_one]
        try simp only [DDClampResult.mk.injEq, DD.fin.injEq]
        try exact ⟨by ring, by ring, by ring⟩
      · rw [mul_one, mul_one, max_eq_right (not_lt.mp h1),
          min_eq_right (not_lt.mp h2)]

/-- **C5 counterexample**.  A non-finite input does *not* yield zero size
with scale adjustment 1.0: with `imageWidth = +∞` (all other factors 1,
bounds 50/200) the computed raw width is replaced by 0 but the finite
height 1 is still clamped up, giving size `(0, 50)` with scale
adjustment `50`. -/
theorem ddPixelDimensions_nonfinite_not_zero :
    ddCalculateBillboardPixelDimensions .pinf (.fin 1) (.fin 1) (.fin 1)
        (.fin 1) (.fin 1) (.fin 50) (.fin 200)
      = ⟨.fin 0, .fin 50, .fin 50⟩ ∧
    ¬ ddCalculateBillboardPixelDimensions .pinf (.fin 1) (.fin 1) (.fin 1)
        (.fin 1) (.fin 1) (.fin 50) (.fin 200)
      = ⟨.fin 0, .fin 0, .fin 1⟩ := by
  have h : ddCalculateBillboardPixelDimensions .pinf (.fin 1) (.fin 1) (.fin 1)
      (.fin 1) (.fin 1) (.fin 50) (.fin 200) = ⟨.fin 0, .fin 50, .fin 50⟩ := by
    unfold ddCalculateBillboardPixelDimensions ddClampSpritePixelSize
    norm_num [DD.ble_fin, DD.ble_pinf_fin, DD.mul_fin, DD.mul_pinf_fin,
      DD.ensureFinite_fin, DD.ensureFinite_pinf, DD.isFinite_fin,
      DD.isFinite_pinf, dd_stdMax_fin, DD.blt_fin, DD.div_fin]
  refine ⟨h, ?_⟩
  rw [h]
  intro hc
  have hcontra := congrArg DDClampResult.height hc
  simp only [DD.fin.injEq] at hcontra
  norm_num at hcontra

/-- **C5 amended** (pixel clamping).  (i) When the positivity guard fires
(any of image width, image height, base meters-per-pixel or effective
pixels-per-meter IEEE-`≤ 0`, NaN comparisons being false), the result is
zero size with scale adjustment 1.0.  (ii) For finite positive inputs
with `0 < spriteMinPixel ≤ spriteMaxPixel`, both dimensions are scaled
by one positive factor `f` equal to the scale adjustment — so the
width/height aspect ratio is preserved — and the larger dimension lands
exactly on `min mx (max mn largest)`, i.e. clamped into `[mn, mx]`.
(iii) For the claim's 1×1 resource with bounds 50/200 the larger
dimension is exactly 50 when the raw size (10) is below 50, and exactly
200 when the raw size (1000) is above 200.  (A non-finite computed
dimension, by contrast, is replaced by zero while the other dimension is
still clamped — see the counterexample.) -/
theorem ddPixelDimensions_clamp :
    (∀ w h bm sc zf ep mn mx : DD,
        (w.ble (.fin 0) || h.ble (.fin 0) || bm.ble (.fin 0) ||
          ep.ble (.fin 0)) = true →
        ddCalculateBillboardPixelDimensions w h bm sc zf ep mn mx
          = ⟨.fin 0, .fin 0, .fin 1⟩) ∧
      (∀ w h bm sc zf ep mn mx : ℚ, 0 < w → 0 < h → 0 < bm → 0 < sc →
        0 < zf → 0 < ep → 0 < mn → mn ≤ mx →
        ∃ f : ℚ, 0 < f ∧
          ddCalculateBillboardPixelDimensions (.fin w) (.fin h) (.fin bm)
              (.fin sc) (.fin zf) (.fin ep) (.fin mn) (.fin mx)
            = ⟨.fin (w * (bm * sc * zf * ep) * f),
               .fin (h * (bm * sc * zf * ep) * f), .fin f⟩ ∧
          Max.max (w * (bm * sc * zf * ep) * f) (h * (bm * sc * zf * ep) * f)
            = Min.min mx (Max.max mn
                (Max.max (w * (bm * sc * zf * ep)) (h * (bm * sc * zf * ep)))) ∧
          w * (bm * sc * zf * ep) * f / (h * (bm * sc * zf * ep) * f)
            = w / h) ∧
      ddCalculateBillboardPixelDimensions (.fin 1) (.fin 1) (.fin 1) (.fin 1)
          (.fin 1) (.fin 10) (.fin 50) (.fin 200)
        = ⟨.fin 50, .fin 50, .fin 5⟩ ∧
      ddCalculateBillboardPixelDimensions (.fin 1) (.fin 1) (.fin 1) (.fin 1)
          (.fin 1) (.fin 1000) (.fin 50) (.fin 200)
        = ⟨.fin 200, .fin 200, .fin (1 / 5)⟩ := by
  refine ⟨?_, ?_,
    by unfold ddCalculateBillboardPixelDimensions ddClampSpritePixelSize
       norm_num [DD.ble_fin, DD.mul_fin, DD.ensureFinite_fin, DD.isFinite_fin,
         dd_stdMax_fin, DD.blt_fin, DD.div_fin],
    by unfold ddCalculateBillboardPixelDimensions ddClampSpritePixelSize
       norm_num [DD.ble_fin, DD.mul_fin, DD.ensureFinite_fin, DD.isFinite_fin,
         dd_stdMax_fin, DD.blt_fin, DD.div_fin]⟩
  · intro w h bm sc zf ep mn mx hguard
    unfold ddCalculateBillboardPixelDimensions
    rw [if_pos hguard]
  · intro w h bm sc zf ep mn mx hw hh hbm hsc hzf hep hmn hmx
    have hsf : (0:ℚ) < bm * sc * zf * ep := by positivity
    have hrw : (0:ℚ) < w * (bm * sc * zf * ep) := by positivity
    have hrh : (0:ℚ) < h * (bm * sc * zf * ep) := by positivity
    obtain ⟨f, hf, heq, hmax⟩ := ddClampSpritePixelSize_fin
      (w * (bm * sc * zf * ep)) (h * (bm * sc * zf * ep)) mn mx hrw hrh hmn hmx
    refine ⟨f, hf, ?_, hmax, ?_⟩
    · unfold ddCalculateBillboardPixelDimensions
      rw [if_neg ?hg]
      case hg =>
        simp only [DD.ble_fin, Bool.or_eq_true, decide_eq_true_eq]
        push_neg
        exact ⟨⟨⟨hw, hh⟩, hbm⟩, hep⟩
      simp only [DD.mul_fin, DD.ensureFinite_fin]
      convert heq using 3
    · rw [mul_div_mul_right _ _ (ne_of_gt hf),
        mul_div_mul_right _ _ (ne_of_gt hsf)]

/-- **C7 counterexample**.  The projection-host `project` entry point does
not return a success boolean at all (it is `void`): on a failing call
with valid non-null pointers (here `worldSize = 0`), it *writes* the
NaN-sentinel triple into the out-buffer instead of returning false
without writing — and the same call through the NaN-free model of a
"false means no output" boolean contract would have produced `noWrite`.
Concretely, `project(0, 0, 0, {worldSize := 0, zero matrix}, out)`
performs the sentinel write. -/
theorem projectEntry_failure_writes_sentinel :
    projectEntry 0 0 0 (some ⟨0, fun _ => 0⟩) true
        = EntryOutcome.nanWrite ∧
      EntryOutcome.nanWrite ≠ (EntryOutcome.noWrite : EntryOutcome (ℝ × ℝ × ℝ)) := by
  constructor
  · unfold projectEntry
    norm_num
  · intro h
    cases h

/-- **C7 amended** (entry-point error signalling).  The calculation-host
entry points (clip-space projection, billboard depth key, surface depth
key, `prepareDrawSpriteImages`) return a success boolean and return
`false` on null-pointer inputs without writing output.  The
projection-host entry points (forward projection, screen projection,
inverse projection, perspective ratio) return void: on null-pointer
inputs they return early without writing, and they signal failure by
writing into the out-buffer — a NaN sentinel for the screen and inverse
projections, the neutral `1.0` for the perspective ratio (which always
writes on non-null pointers, as does the forward projection). -/
theorem entry_point_null_and_error_signalling :
    (∀ (lng lat altitude : ℝ) (outPtr : Bool),
        projectLngLatToClipSpaceEntry lng lat altitude none outPtr
          = (false, none)) ∧
      (∀ (lng lat altitude : ℝ) (m : Mat4),
        projectLngLatToClipSpaceEntry lng lat altitude (some m) false
          = (false, none)) ∧
      (∀ (centerX centerY worldSize : ℝ) (mi mm : Option Mat4),
        calculateBillboardDepthKeyEntry centerX centerY worldSize none mm true
            = (false, none) ∧
          calculateBillboardDepthKeyEntry centerX centerY worldSize mi none
            true = (false, none) ∧
          calculateBillboardDepthKeyEntry centerX centerY worldSize mi mm
            false = (false, none)) ∧
      (∀ (a b c : ℝ) (i : Option (List (ℝ × ℝ))) (j : Option (List ℤ))
          (mm : Option Mat4) (ab : ℤ) (bn me : ℝ),
        calculateSurfaceDepthKeyEntry a b c none j mm ab bn me true
            = (false, none) ∧
          calculateSurfaceDepthKeyEntry a b c i none mm ab bn me true
            = (false, none) ∧
          calculateSurfaceDepthKeyEntry a b c i j none ab bn me true
            = (false, none) ∧
          calculateSurfaceDepthKeyEntry a b c i j mm ab bn me false
            = (false, none)) ∧
      (∀ (rest : List ℚ → List ℚ → List ℚ) (r : Option (List ℚ))
          (p : List ℚ),
        prepareDrawSpriteImages rest none r = (false, r) ∧
          prepareDrawSpriteImages rest (some p) none = (false, none)) ∧
      (∀ lng lat altitude : ℝ,
        fromLngLatEntry lng lat altitude false = .noWrite ∧
          fromLngLatEntry lng lat altitude true
            = .wrote (fromLngLat lng lat altitude)) ∧
      (∀ (lng lat altitude : ℝ) (ctx : Option ProjectContextBuf),
        projectEntry lng lat altitude none true = .noWrite ∧
          projectEntry lng lat altitude ctx false = .noWrite) ∧
      (∀ (pointX pointY : ℝ) (ctx : Option ProjectContextBuf),
        unprojectEntry pointX pointY none true = .noWrite ∧
          unprojectEntry pointX pointY ctx false = .noWrite) ∧
      (∀ (pointX pointY : ℝ) (m : Mat4),
        unprojectEntry pointX pointY (some ⟨0, m⟩) true = .nanWrite) ∧
      ∀ (lng lat altitude : ℝ) (cached : ℝ × ℝ × ℝ) (c : ℝ × Mat4),
        calculatePerspectiveRatioEntry lng lat altitude none (some c) true
            = .noWrite ∧
          calculatePerspectiveRatioEntry lng lat altitude (some cached) none
            true = .noWrite ∧
          ∃ v : ℝ, calculatePerspectiveRatioEntry lng lat altitude
            (some cached) (some c) true = .wrote v := by
  refine ⟨fun _ _ _ _ => rfl, fun _ _ _ _ => rfl, ?_, ?_, ?_, ?_, ?_, ?_, ?_, ?_⟩
  · intro centerX centerY worldSize mi mm
    rcases mi with _ | mi' <;> rcases mm with _ | mm' <;>
      exact ⟨rfl, rfl, rfl⟩
  · intro a b c i j mm ab bn me
    rcases i with _ | i' <;> rcases j with _ | j' <;>
      rcases mm with _ | mm' <;> exact ⟨rfl, rfl, rfl, rfl⟩
  · intro rest r p
    exact ⟨rfl, rfl⟩
  · intro lng lat altitude
    exact ⟨rfl, rfl⟩
  · intro lng lat altitude ctx
    refine ⟨rfl, ?_⟩
    rcases ctx with _ | c <;> rfl
  · intro pointX pointY ctx
    refine ⟨rfl, ?_⟩
    rcases ctx with _ | c <;> rfl
  · intro pointX pointY m
    unfold unprojectEntry
    norm_num
  · intro lng lat altitude cached c
    refine ⟨rfl, rfl, ?_⟩
    unfold calculatePerspectiveRatioEntry
    rcases h : calculatePerspectiveRatioCore lng lat altitude (some cached)
        c.1 c.2 with _ | ratio
    · exact ⟨1, by simp [h]⟩
    · exact ⟨ratio, by simp [h]⟩

/-- The source's running-maximum update is the maximum. -/
theorem ite_lt_eq_max (a d : ℝ) : (if a < d then d else a) = Max.max a d := by
  split_ifs with h
  · rw [max_eq_right h.le]
  · rw [max_eq_left (not_lt.mp h)]

/-- The triangle index list visits corners 2 and 1 twice; the duplicate
maxima collapse. -/
theorem max_visit_dedup (d0 d1 d2 d3 : ℝ) :
    Max.max (Max.max (Max.max (Max.max (Max.max d0 d1) d2) d2) d1) d3
      = Max.max (Max.max (Max.max d0 d1) d2) d3 := by
  rw [max_eq_left (le_max_right (Max.max d0 d1) d2),
    max_eq_left (le_trans (le_max_right d0 d1) (le_max_left _ _))]

/-- A successful clip projection has `clipW > MIN_CLIP_W`. -/
theorem projectLngLatToClipSpace_w_pos (lng lat altitude : ℝ) (m : Mat4)
    (clip : ℝ × ℝ × ℝ × ℝ)
    (h : projectLngLatToClipSpace lng lat altitude m = some clip) :
    MIN_CLIP_W < clip.2.2.2 := by
  unfold projectLngLatToClipSpace at h
  simp only [] at h
  split_ifs at h with hw
  all_goals
    rw [Option.some_inj] at h
    rw [← h]
    exact not_le.mp hw

/-- **C4** (surface depth key is the biased max over corners).
For the standard invocation — the four corner displacements and the
triangle index list `[0,1,2,2,1,3]`:
(i) the key is `some k` exactly when every corner's depth evaluates, and
then `k` is the maximum of the four corner depths;
(ii) the computation fails (`none`, the item is dropped) exactly when
some corner's evaluation fails — which happens exactly when that
corner's clip-space projection fails, since over ℝ a successful
projection always yields a finite NDC depth;
(iii) with bias enabled, a corner whose displaced clip projection yields
`(x, y, z, w)` contributes
`-(max (z + biasNdc·w) (-w + minClipZEpsilon) / w)` — the biased clip z,
floored at the near plane, perspective-divided and negated. -/
theorem surfaceDepthKey_max_over_corners :
    ∀ (baseLng baseLat baseAltitude : ℝ) (c0 c1 c2 c3 : ℝ × ℝ) (m : Mat4)
      (applyBias : Bool) (biasNdc minClipZEpsilon : ℝ),
      (∀ k : ℝ,
        calculateSurfaceDepthKey baseLng baseLat baseAltitude [c0, c1, c2, c3]
            TRIANGLE_INDICES m applyBias biasNdc minClipZEpsilon = some k
          ↔ ∃ d0 d1 d2 d3 : ℝ,
              surfaceCornerDepth baseLng baseLat baseAltitude c0.1 c0.2 m
                  applyBias biasNdc minClipZEpsilon = some d0 ∧
                surfaceCornerDepth baseLng baseLat baseAltitude c1.1 c1.2 m
                  applyBias biasNdc minClipZEpsilon = some d1 ∧
                surfaceCornerDepth baseLng baseLat baseAltitude c2.1 c2.2 m
                  applyBias biasNdc minClipZEpsilon = some d2 ∧
                surfaceCornerDepth baseLng baseLat baseAltitude c3.1 c3.2 m
                  applyBias biasNdc minClipZEpsilon = some d3 ∧
                k = Max.max (Max.max (Max.max d0 d1) d2) d3) ∧
      (calculateSurfaceDepthKey baseLng baseLat baseAltitude [c0, c1, c2, c3]
            TRIANGLE_INDICES m applyBias biasNdc minClipZEpsilon = none
          ↔ surfaceCornerDepth baseLng baseLat baseAltitude c0.1 c0.2 m
                applyBias biasNdc minClipZEpsilon = none ∨
              surfaceCornerDepth baseLng baseLat baseAltitude c1.1 c1.2 m
                applyBias biasNdc minClipZEpsilon = none ∨
              surfaceCornerDepth baseLng baseLat baseAltitude c2.1 c2.2 m
                applyBias biasNdc minClipZEpsilon = none ∨
              surfaceCornerDepth baseLng baseLat baseAltitude c3.1 c3.2 m
                applyBias biasNdc minClipZEpsilon = none) ∧
      (∀ east north : ℝ,
        (surfaceCornerDepth baseLng baseLat baseAltitude east north m
              applyBias biasNdc minClipZEpsilon = none
          ↔ projectLngLatToClipSpace
              (applySurfaceDisplacement baseLng baseLat baseAltitude east
                north).1
              (applySurfaceDisplacement baseLng baseLat baseAltitude east
                north).2.1
              (applySurfaceDisplacement baseLng baseLat baseAltitude east
                north).2.2 m = none)) ∧
      ∀ (east north : ℝ) (clip : ℝ × ℝ × ℝ × ℝ),
        projectLngLatToClipSpace
            (applySurfaceDisplacement baseLng baseLat baseAltitude east
              north).1
            (applySurfaceDisplacement baseLng baseLat baseAltitude east
              north).2.1
            (applySurfaceDisplacement baseLng baseLat baseAltitude east
              north).2.2 m = some clip →
        surfaceCornerDepth baseLng baseLat baseAltitude east north m true
            biasNdc minClipZEpsilon
          = some (-(Max.max (clip.2.2.1 + biasNdc * clip.2.2.2)
              (-clip.2.2.2 + minClipZEpsilon) / clip.2.2.2)) := by
  intro baseLng baseLat baseAltitude c0 c1 c2 c3 m applyBias biasNdc minEps
  have heval : ∀ east north : ℝ,
      surfaceCornerDepth baseLng baseLat baseAltitude east north m applyBias
          biasNdc minEps = none
        ↔ projectLngLatToClipSpace
            (applySurfaceDisplacement baseLng baseLat baseAltitude east
              north).1
            (applySurfaceDisplacement baseLng baseLat baseAltitude east
              north).2.1
            (applySurfaceDisplacement baseLng baseLat baseAltitude east
              north).2.2 m = none := by
    intro east north
    unfold surfaceCornerDepth
    rcases hp : projectLngLatToClipSpace
        (applySurfaceDisplacement baseLng baseLat baseAltitude east north).1
        (applySurfaceDisplacement baseLng baseLat baseAltitude east north).2.1
        (applySurfaceDisplacement baseLng baseLat baseAltitude east north).2.2
        m with _ | clip
    · simp [hp]
    · simp [hp]
  refine ⟨?_, ?_, heval, ?_⟩
  · intro k
    rcases h0 : surfaceCornerDepth baseLng baseLat baseAltitude c0.1 c0.2 m
        applyBias biasNdc minEps with _ | d0 <;>
      rcases h1 : surfaceCornerDepth baseLng baseLat baseAltitude c1.1 c1.2 m
        applyBias biasNdc minEps with _ | d1 <;>
      rcases h2 : surfaceCornerDepth baseLng baseLat baseAltitude c2.1 c2.2 m
        applyBias biasNdc minEps with _ | d2 <;>
      rcases h3 : surfaceCornerDepth baseLng baseLat baseAltitude c3.1 c3.2 m
        applyBias biasNdc minEps with _ | d3 <;>
simp only [calculateSurfaceDepthKey, surfaceDepthLoop, TRIANGLE_INDICES,
        h0, h1, h2, h3, ite_lt_eq_max, max_visit_dedup, List.length_cons,
        List.length_nil, List.getD_cons_zero, List.getD_cons_succ,
        Int.toNat_zero, Int.toNat_one, (by decide : Int.toNat 2 = 2),
        (by decide : Int.toNat 3 = 3), Option.some_inj] <;>
      simp [eq_comm]
  · rcases h0 : surfaceCornerDepth baseLng baseLat baseAltitude c0.1 c0.2 m
        applyBias biasNdc minEps with _ | d0 <;>
      rcases h1 : surfaceCornerDepth baseLng baseLat baseAltitude c1.1 c1.2 m
        applyBias biasNdc minEps with _ | d1 <;>
      rcases h2 : surfaceCornerDepth baseLng baseLat baseAltitude c2.1 c2.2 m
        applyBias biasNdc minEps with _ | d2 <;>
      rcases h3 : surfaceCornerDepth baseLng baseLat baseAltitude c3.1 c3.2 m
        applyBias biasNdc minEps with _ | d3 <;>
simp only [calculateSurfaceDepthKey, surfaceDepthLoop, TRIANGLE_INDICES,
        h0, h1, h2, h3, ite_lt_eq_max, max_visit_dedup, List.length_cons,
        List.length_nil, List.getD_cons_zero, List.getD_cons_succ,
        Int.toNat_zero, Int.toNat_one, (by decide : Int.toNat 2 = 2),
        (by decide : Int.toNat 3 = 3), Option.some_inj] <;>
      simp
  · intro east north clip hp
    have hwpos := projectLngLatToClipSpace_w_pos _ _ _ _ _ hp
    have hwne : clip.2.2.2 ≠ 0 := by
      have : (0:ℝ) < MIN_CLIP_W := by norm_num [MIN_CLIP_W]
      exact ne_of_gt (lt_trans this hwpos)
    unfold surfaceCornerDepth
    simp only []
    rw [hp]
    simp only [if_true]
    rw [if_pos hwne, ite_lt_eq_max]

/-- `clamp` of 0 between the mercator latitude bounds is 0. -/
theorem clamp_zero_lat :
    clamp 0 (-MAX_MERCATOR_LATITUDE) MAX_MERCATOR_LATITUDE = 0 := by
  norm_num [clamp, MAX_MERCATOR_LATITUDE]

/-- The equator maps to mercator y = 1/2. -/
theorem mercatorYfromLat_zero : mercatorYfromLat 0 = 1 / 2 := by
  unfold mercatorYfromLat
  simp only [clamp_zero_lat]
  norm_num [Real.tan_pi_div_four, Real.log_one]

/-- Mercator y = 1/2 maps back to the equator. -/
theorem latFromMercatorY_half : latFromMercatorY (1 / 2) = 0 := by
  unfold latFromMercatorY
  norm_num [Real.exp_zero, Real.arctan_one]
  field_simp
  norm_num

/-- Zero altitude gives zero mercator z. -/
theorem mercatorZfromAltitude_zero (latDeg : ℝ) :
    mercatorZfromAltitude 0 latDeg = 0 := by
  unfold mercatorZfromAltitude
  split_ifs <;> simp

/-- Unprojection through the identity matrix maps the point straight back
to lng/lat. -/
theorem unproject_idMat4 (x y : ℝ) :
    unproject x y 1 idMat4
      = some (lngFromMercatorX x,
          clamp (latFromMercatorY y) (-MAX_MERCATOR_LATITUDE)
            MAX_MERCATOR_LATITUDE) := by
  unfold unproject unprojCoord multiplyMatrixAndVector idMat4
  norm_num

/-- `_fromLngLat` on the equator at mercator x `d`. -/
theorem fromLngLat_equator (d : ℝ) :
    fromLngLat (lngFromMercatorX d) 0 0 = (d, 1 / 2, 0) := by
  unfold fromLngLat
  simp only [clamp_zero_lat]
  rw [mercatorYfromLat_zero, mercatorZfromAltitude_zero]
  unfold mercatorXfromLng lngFromMercatorX
  norm_num

/-- The billboard depth key through `idMat4` / `axialPerspMat`: the screen
center `(d, 1/2)` reprojects with camera depth `clipW = d` and key
`-(2·d - 3)/d`. -/
theorem billboardDepthKey_axial (d : ℝ) (hd : d ≠ 0) :
    calculateBillboardDepthKey d (1 / 2) 1 idMat4 axialPerspMat
      = some (-((2 * d - 3) / d)) := by
  unfold calculateBillboardDepthKey
  rw [if_neg (by norm_num)]
  rw [unproject_idMat4, latFromMercatorY_half, clamp_zero_lat]
  simp only []
  rw [fromLngLat_equator]
  simp only [multiplyMatrixAndVector, axialPerspMat]
  norm_num
  rw [if_neg hd]
  ring_nf

/-- **C3 counterexample**.  With the identity inverse pixel matrix and the
equatorial perspective mercator matrix `axialPerspMat`, the screen
center `(1, 1/2)` reprojects at camera depth `clipW = 1` and the center
`(2, 1/2)` at camera depth `2`; the billboard depth key of the nearer
center is `1`, that of the farther one is `-1/2`.  The nearer item's key
is larger, not smaller. -/
theorem billboard_nearer_key_not_smaller :
    calculateBillboardDepthKey 1 (1 / 2) 1 idMat4 axialPerspMat = some 1
      ∧ calculateBillboardDepthKey 2 (1 / 2) 1 idMat4 axialPerspMat
          = some (-(1 / 2))
      ∧ (multiplyMatrixAndVector axialPerspMat 1 (1 / 2) 0 1).2.2.2 = 1
      ∧ (multiplyMatrixAndVector axialPerspMat 2 (1 / 2) 0 1).2.2.2 = 2
      ∧ ¬ ((1 : ℝ) < -(1 / 2)) := by
  refine ⟨?_, ?_, ?_, ?_, by norm_num⟩
  · rw [billboardDepthKey_axial 1 (by norm_num)]
    norm_num
  · rw [billboardDepthKey_axial 2 (by norm_num)]
    norm_num
  · norm_num [multiplyMatrixAndVector, axialPerspMat]
  · norm_num [multiplyMatrixAndVector, axialPerspMat]

/-- **C3** (corrected: nearer means *larger* key).  Two billboard screen
centers on the equatorial axis of `axialPerspMat` reproject at camera
depths `dA < dB` (the first strictly nearer); both depth keys evaluate,
and the nearer center's key is strictly larger: `-NDC_z` grows toward
the camera, since NDC z is `-1` at the near plane and `+1` at the far
plane. -/
theorem billboard_depth_key_nearer_larger (dA dB : ℝ) (hA : 0 < dA)
    (hAB : dA < dB) :
    ∃ kA kB : ℝ,
      calculateBillboardDepthKey dA (1 / 2) 1 idMat4 axialPerspMat = some kA
        ∧ calculateBillboardDepthKey dB (1 / 2) 1 idMat4 axialPerspMat = some kB
        ∧ (multiplyMatrixAndVector axialPerspMat dA (1 / 2) 0 1).2.2.2 = dA
        ∧ (multiplyMatrixAndVector axialPerspMat dB (1 / 2) 0 1).2.2.2 = dB
        ∧ kB < kA := by
  have hB : 0 < dB := lt_trans hA hAB
  have hA' : dA ≠ 0 := ne_of_gt hA
  have hB' : dB ≠ 0 := ne_of_gt hB
  refine ⟨-((2 * dA - 3) / dA), -((2 * dB - 3) / dB),
    billboardDepthKey_axial dA hA', billboardDepthKey_axial dB hB', ?_, ?_, ?_⟩
  · norm_num [multiplyMatrixAndVector, axialPerspMat]
  · norm_num [multiplyMatrixAndVector, axialPerspMat]
  · have h3 : 3 / dB < 3 / dA := div_lt_div_of_pos_left (by norm_num) hA hAB
    have eA : -((2 * dA - 3) / dA) = 3 / dA - 2 := by
      field_simp
      ring
    have eB : -((2 * dB - 3) / dB) = 3 / dB - 2 := by
      field_simp
      ring
    rw [eA, eB]
    linarith

/-- Witness: the corrected monotonicity at camera depths 1 < 2. -/
theorem billboard_depth_key_nearer_larger_witness :
    (0 : ℝ) < 1 ∧ (1 : ℝ) < 2 ∧
      ∃ kA kB : ℝ,
        calculateBillboardDepthKey 1 (1 / 2) 1 idMat4 axialPerspMat = some kA
          ∧ calculateBillboardDepthKey 2 (1 / 2) 1 idMat4 axialPerspMat
              = some kB
          ∧ (multiplyMatrixAndVector axialPerspMat 1 (1 / 2) 0 1).2.2.2 = 1
          ∧ (multiplyMatrixAndVector axialPerspMat 2 (1 / 2) 0 1).2.2.2 = 2
          ∧ kB < kA :=
  ⟨by norm_num, by norm_num,
    billboard_depth_key_nearer_larger 1 2 (by norm_num) (by norm_num)⟩

/-- The elevation-reading pixel matrix projects `(0, 0, z)` to `(z, 0)`. -/
theorem originCex_project (z : ℝ) :
    projectSpritePoint originCexCtx ⟨0, 0, z⟩ = some ⟨z, 0⟩ := by
  unfold projectSpritePoint originCexCtx
  simp only []
  rw [if_neg (by norm_num)]
  unfold project projectClipVals
  simp only [clamp_zero_lat, mercatorYfromLat_zero]
  norm_num [zElevMat, mercatorXfromLng]

/-- The item screen point `(1/2, 1/2)` unprojects to the equatorial origin
at altitude 0. -/
theorem originCex_unproject :
    unprojectSpritePoint originCexCtx ⟨1 / 2, 1 / 2⟩ = some ⟨0, 0, 0⟩ := by
  unfold unprojectSpritePoint originCexCtx
  simp only []
  rw [if_neg (by norm_num), unproject_idMat4, latFromMercatorY_half,
    clamp_zero_lat]
  norm_num [lngFromMercatorX]

/-- **C8 counterexample**.  An out-of-range origin reference is NOT treated
exactly as if the item carried no origin reference.  The reference does
fail to resolve, and the base screen point falls back to the item's own
projected point; but in surface mode the stale origin fields still route
the base lng/lat through *unprojecting that screen point* (altitude 0)
instead of using the item's geodetic location (altitude 1), and the
computed center moves: `(0, 0)` with the dangling reference, `(1, 0)`
with no reference. -/
theorem invalid_origin_reference_not_ignored :
    resolveOriginBucketItem (originCexItem 5) [] = none
      ∧ computeImageCenter 1 (originCexItem 5) false originCexCtx originCexFrame
          originCexResource 1 [] false = ⟨0, 0⟩
      ∧ computeImageCenter 1 (originCexItem (-1)) false originCexCtx
          originCexFrame originCexResource 1 [] false = ⟨1, 0⟩
      ∧ (⟨0, 0⟩ : SpriteScreenPoint) ≠ ⟨1, 0⟩ := by
  have hres : resolveOriginBucketItem (originCexItem 5) [] = none := by
    unfold resolveOriginBucketItem originCexItem originCexEntry
    norm_num [convertToInt64, SPRITE_ORIGIN_REFERENCE_INDEX_NONE]
  refine ⟨hres, ?_, ?_, by norm_num [SpriteScreenPoint.mk.injEq]⟩
  · show computeImageCenter (0 + 1) (originCexItem 5) false originCexCtx
        originCexFrame originCexResource 1 [] false = ⟨0, 0⟩
    have hhol : hasOriginLocation (originCexItem 5).entry := by
      norm_num [hasOriginLocation, originCexItem, originCexEntry]
    have hbp : ∀ r, resolveBasePoint r (originCexItem 5) []
        = (⟨1 / 2, 1 / 2⟩ : SpriteScreenPoint) := by
      intro r
      unfold resolveBasePoint
      rw [if_pos hhol, hres]
      rfl
    simp only [computeImageCenter, hbp]
    norm_num [originCexItem, originCexEntry, originCexResource, originCexFrame,
      lround, hasOriginLocation, originCex_unproject, originCex_project,
      calculateSurfaceCenterPosition_eq, calculateSurfaceWorldDimensions,
      calculateSurfaceAnchorShiftMeters, calculateSurfaceOffsetMeters,
      applySurfaceDisplacement, surfaceProjectPoint, projectLngLatToClip]
  · show computeImageCenter (0 + 1) (originCexItem (-1)) false originCexCtx
        originCexFrame originCexResource 1 [] false = ⟨1, 0⟩
    have hnhol : ¬ hasOriginLocation (originCexItem (-1)).entry := by
      norm_num [hasOriginLocation, originCexItem, originCexEntry]
    have hbp : ∀ r, resolveBasePoint r (originCexItem (-1)) []
        = (⟨1 / 2, 1 / 2⟩ : SpriteScreenPoint) := by
      intro r
      unfold resolveBasePoint
      rw [if_neg hnhol]
      rfl
    simp only [computeImageCenter, hbp]
    norm_num [originCexItem, originCexEntry, originCexResource, originCexFrame,
      lround, hasOriginLocation, originCex_project,
      calculateSurfaceCenterPosition_eq, calculateSurfaceWorldDimensions,
      calculateSurfaceAnchorShiftMeters, calculateSurfaceOffsetMeters,
      applySurfaceDisplacement, surfaceProjectPoint, projectLngLatToClip]

/-- **C8** (corrected).  An origin reference that fails to resolve — an
out-of-range index or a different sprite handle — is ignored for the
*base screen point*: `resolveOriginBucketItem` is null in both cases,
`resolveBasePoint` then returns the item's own projected point for every
recursive resolver, exactly as for an item with no origin reference at
all; and in billboard mode the whole center computation agrees with the
same item with its origin fields cleared.  (In surface mode the stale
reference still changes the base lng/lat source — see the
counterexample.) -/
theorem origin_reference_validation :
    (∀ (current : BucketItem) (items : List BucketItem) (originIndex : ℤ),
        convertToInt64 current.entry.originTargetIndex = some originIndex →
        0 ≤ originIndex → items.length ≤ originIndex.toNat →
        resolveOriginBucketItem current items = none)
      ∧ (∀ (current : BucketItem) (items : List BucketItem) (originIndex : ℤ)
            (candidate : BucketItem),
          convertToInt64 current.entry.originTargetIndex = some originIndex →
          items.get? originIndex.toNat = some candidate →
          candidate.spriteHandle ≠ current.spriteHandle →
          resolveOriginBucketItem current items = none)
      ∧ (∀ (current : BucketItem) (items : List BucketItem)
            (recurse : BucketItem → Bool → ResourceInfo → SpriteScreenPoint),
          resolveOriginBucketItem current items = none →
          resolveBasePoint recurse current items = current.projected)
      ∧ (∀ (current : BucketItem) (items : List BucketItem)
            (recurse : BucketItem → Bool → ResourceInfo → SpriteScreenPoint),
          ¬ hasOriginLocation current.entry →
          resolveBasePoint recurse current items = current.projected)
      ∧ ∀ (fuel : ℕ) (bucketItem : BucketItem) (useResolvedAnchor : Bool)
          (projection : ProjectionContext) (frame : FrameConstants)
          (resource : ResourceInfo) (effectivePixelsPerMeter : ℝ)
          (bucketItems : List BucketItem) (clipContextAvailable : Bool),
          lround bucketItem.entry.mode ≠ 0 →
          resolveOriginBucketItem bucketItem bucketItems = none →
          computeImageCenter (fuel + 1) bucketItem useResolvedAnchor projection
              frame resource effectivePixelsPerMeter bucketItems
              clipContextAvailable
            = computeImageCenter (fuel + 1) (clearOrigin bucketItem)
                useResolvedAnchor projection frame resource
                effectivePixelsPerMeter bucketItems clipContextAvailable := by
  refine ⟨?_, ?_, ?_, ?_, ?_⟩
  · intro current items originIndex hconv h0 hlen
    unfold resolveOriginBucketItem
    rw [hconv]
    simp only []
    split_ifs with h1 h2
    · rfl
    · rfl
    · exact absurd (Or.inr hlen) h2
  · intro current items originIndex candidate hconv hget hne
    unfold resolveOriginBucketItem
    rw [hconv]
    simp only []
    split_ifs with h1 h2
    · rfl
    · rfl
    · rw [hget]
      simp only []
      rw [if_pos hne]
  · intro current items recurse hres
    unfold resolveBasePoint
    split_ifs with h
    · rw [hres]
    · rfl
  · intro current items recurse hno
    unfold resolveBasePoint
    rw [if_neg hno]
  · intro fuel bucketItem useResolvedAnchor projection frame resource eppm
      items clipAvail hmode hres
    have hbp : ∀ r, resolveBasePoint r bucketItem items
        = bucketItem.projected := by
      intro r
      unfold resolveBasePoint
      split_ifs with h
      · rw [hres]
      · rfl
    have hnhol : ¬ hasOriginLocation (clearOrigin bucketItem).entry := by
      norm_num [hasOriginLocation, clearOrigin, clearOriginFields]
    have hbp2 : ∀ r, resolveBasePoint r (clearOrigin bucketItem) items
        = bucketItem.projected := by
      intro r
      unfold resolveBasePoint
      rw [if_neg hnhol]
      rfl
    simp only [computeImageCenter, hbp, hbp2]
    simp only [clearOrigin, clearOriginFields]
    simp only [if_neg hmode]

end MGL
